import Mathlib

/-! # TClingClassInfo: the class-info cursor over the declaration tree

A shallow embedding of `core/meta/src/TClingClassInfo.cxx`.

* Pointers to declarations are modelled by the declaration itself together with
  its address (`DeclInfo.addr`); pointer comparisons compare addresses.
* A `DeclContext::decl_iterator` is a pointer into the singly linked sibling
  chain of a scope; it is modelled by the list of declarations from the current
  one to the end of the scope.  The null (end) iterator is `[]`, `*it` is the
  head and `++it` is the tail.
* `fIterStack` is a `std::vector`; the head of the list is `back()`.
* The collaborators (AST context, lookup helper, base-class enumeration) are
  parameters of the functions that use them.
* Messages sent through `Error(...)` are returned next to the result.  The
  interpreter transactions (`PushTransactionRAII`) have no effect on the
  members of the cursor and are left out.
* The `while (true)` loop of `InternalNext` is run with a bound computed from
  the cursor (`work`); the results are `Option`s, and the loop is proved to
  return within the bound from every cursor.

The file has the definitions first (the embedding, the listing and offset the
specification describes, auxiliary definitions, example inputs), then the
auxiliary facts, then the theorems of the claims.
-/

namespace TClingClassInfo

/-! ## Data model -/

/-- The declaration kinds (`clang::Decl::Kind`) that the code distinguishes. -/
inductive DeclKind where
  | TranslationUnit
  | Namespace
  | Enum
  | CXXRecord
  | ClassTemplateSpecialization
  | ClassTemplatePartialSpecialization
  | LinkageSpec
  | Function
  | CXXMethod
  | Var
  | Typedef
  | Field
  deriving DecidableEq, Repr

/-- The tag kind of a `TagDecl` (`struct`, `class`, `union`, `enum`). -/
inductive TagKind where
  | Struct
  | Class
  | Union
  | Enum
  deriving DecidableEq, Repr

/-- The access specifier of a declaration (`clang::AccessSpecifier`). -/
inductive AccessSpecifier where
  | AS_public
  | AS_protected
  | AS_private
  | AS_none
  deriving DecidableEq, Repr

/-- A constructor of a record, as seen through `ctor_begin()`/`ctor_end()`. -/
structure CtorInfo where
  getAccess : AccessSpecifier
  getNumParams : Nat
  getMinRequiredArguments : Nat
  deriving DecidableEq, Repr

/-- A type template argument of a class template specialization, as the code
looks at it: the type is `GetUnderlyingType(arg.getAsType())`. -/
structure TemplateArgType where
  isFundamentalType : Bool
  isEnumeralType : Bool
  /-- Answer of `type->getAsCXXRecordDecl()->getAccess()`. -/
  recordAccess : AccessSpecifier
  deriving DecidableEq, Repr

/-- The attributes of one declaration node that the code queries.  The record
attributes are the answers of the front end (`CXXRecordDecl::isAbstract()` and
so on) for this node. -/
structure DeclInfo where
  /-- Address of the node: the identity of a `Decl*`. -/
  addr : Nat
  kind : DeclKind
  /-- Unqualified name (`getNameForDiagnostic`, `Qualified = false`). -/
  name : String := ""
  /-- Qualified name (`getNameForDiagnostic`, `Qualified = true`). -/
  qualifiedName : String := ""
  /-- Answer of `TagDecl::isCompleteDefinition()`: this node is the definition. -/
  isCompleteDefinition : Bool := true
  /-- Answer of `Decl::isCanonicalDecl()`: this node is the first declaration. -/
  isCanonicalDecl : Bool := true
  /-- Answer of `CXXRecordDecl::hasDefinition()` / `TagDecl::getDefinition() != 0`. -/
  hasDefinition : Bool := true
  tagKind : TagKind := TagKind.Class
  getAccess : AccessSpecifier := AccessSpecifier.AS_none
  isAbstract : Bool := false
  hasUserDeclaredConstructor : Bool := false
  hasTrivialDefaultConstructor : Bool := true
  hasUserProvidedDefaultConstructor : Bool := false
  hasUserDeclaredDestructor : Bool := false
  hasTrivialDestructor : Bool := true
  hasUserDeclaredCopyAssignment : Bool := false
  isPolymorphic : Bool := false
  ctors : List CtorInfo := []
  /-- Answer of `NamedDecl::getIdentifier()`: the identifier, or nothing for an
  unnamed declaration; `getName()` and `getNameAsString()` give its text. -/
  getIdentifier : Option String := none
  /-- Answer of `getTemplateArgs()` of a class template specialization. -/
  templateArgs : List TemplateArgType := []
  deriving DecidableEq, Repr

/-- A node of the declaration tree: its attributes and, when it is a
`DeclContext`, the declarations of its scope in order (`decls_begin()` ...). -/
inductive Decl where
  | mk (info : DeclInfo) (decls : List Decl)
  deriving Repr

namespace Decl

/-- The attributes of a node. -/
def info : Decl → DeclInfo
  | mk i _ => i

/-- The declarations of the scope of a node, `decls_begin()` to the end. -/
def decls : Decl → List Decl
  | mk _ ds => ds

/-- Answer of `getKind()`. -/
def kind (d : Decl) : DeclKind := d.info.kind

/-- Address of the node. -/
def addr (d : Decl) : Nat := d.info.addr

/-- Whether `llvm::dyn_cast<TagDecl>` succeeds. -/
def isTagDecl (d : Decl) : Bool :=
  d.kind == DeclKind.Enum || d.kind == DeclKind.CXXRecord ||
    d.kind == DeclKind.ClassTemplateSpecialization ||
    d.kind == DeclKind.ClassTemplatePartialSpecialization

/-- Whether `llvm::dyn_cast<RecordDecl>` (and `dyn_cast<CXXRecordDecl>`) succeeds. -/
def isRecordDecl (d : Decl) : Bool :=
  d.kind == DeclKind.CXXRecord ||
    d.kind == DeclKind.ClassTemplateSpecialization ||
    d.kind == DeclKind.ClassTemplatePartialSpecialization

/-- Whether `llvm::dyn_cast<NamedDecl>` succeeds. -/
def isNamedDecl (d : Decl) : Bool :=
  !(d.kind == DeclKind.TranslationUnit || d.kind == DeclKind.LinkageSpec)

/-- Answer of `RecordDecl::isUnion()`. -/
def isUnion (d : Decl) : Bool := d.info.tagKind == TagKind.Union

end Decl

/-- A `clang::Type` as far as the code looks at it. -/
structure ClangType where
  /-- Answer of `isIncompleteType()`. -/
  isIncompleteType : Bool
  /-- Result of `getAs<TagType>()->getDecl()`, when the type is a tag type. -/
  tagDecl : Option Decl

/-- The part of `clang::ASTContext` that the code uses. -/
structure ASTContext where
  /-- Result of `getRecordType(RD).getTypePtr()`. -/
  getRecordType : Decl → ClangType

/-- A message on the diagnostic channel (`Error(location, message)`). -/
structure Diag where
  location : String
  message : String
  deriving DecidableEq, Repr

/-- The mutable members of a `TClingClassInfo`. -/
structure Cursor where
  fFirstTime : Bool
  fDescend : Bool
  fIter : List Decl
  fIterStack : List (List Decl)
  fDecl : Option Decl
  fType : Option ClangType

/-! ## Size of a forest, used to bound the `while (true)` loop -/

mutual
/-- Number of nodes of a tree. -/
def declSize : Decl → Nat
  | Decl.mk _ ds => 1 + forestSize ds
/-- Number of nodes of a forest. -/
def forestSize : List Decl → Nat
  | [] => 0
  | d :: ds => declSize d + forestSize ds
end

/-- Nodes still ahead of the suspended iterators of the stack: every entry
resumes after its current declaration. -/
def stackWork : List (List Decl) → Nat
  | [] => 0
  | e :: st => forestSize e.tail + stackWork st

/-- Bound on the number of iterations of the loop of `InternalNext`. -/
def work (c : Cursor) : Nat :=
  forestSize c.fIter + stackWork c.fIterStack + (if c.fFirstTime then 1 else 0)

/-! ## InternalNext -/

/-- Lines 628-644: advance one declaration, or descend into the scope of the
current declaration `d` (the iterator is `d :: rest`). -/
def advance (c : Cursor) (d : Decl) (rest : List Decl) : Cursor :=
  if !c.fDescend then
    { c with fIter := rest }
  else
    { c with fDescend := false, fIterStack := (d :: rest) :: c.fIterStack, fIter := d.decls }

/-- Lines 646-653: `while (!*fIter && fIterStack.size())` pop the suspended
iterator and move it one past its declaration. -/
def popPastEnd : List Decl → List (List Decl) → List Decl × List (List Decl)
  | [], top :: st => popPastEnd top.tail st
  | it, st => (it, st)

/-- Lines 646-653 on the cursor. -/
def fixPastEnd (c : Cursor) : Cursor :=
  { c with fIter := (popPastEnd c.fIter c.fIterStack).1,
           fIterStack := (popPastEnd c.fIter c.fIterStack).2 }

/-- What one pass over lines 662-699 does: return from the function, or
`continue`. -/
inductive Outcome where
  | done (ret : Int) (c : Cursor)
  | again (c : Cursor)

/-- Lines 662-699, with `d = *fIter`. -/
def examine (ctx : ASTContext) (c : Cursor) (d : Decl) : Outcome :=
  if d.kind == DeclKind.Namespace || d.kind == DeclKind.Enum ||
      d.kind == DeclKind.CXXRecord || d.kind == DeclKind.ClassTemplateSpecialization then
    if d.isTagDecl && !d.info.isCompleteDefinition then
      Outcome.again c
    else if d.kind == DeclKind.Namespace && !d.info.isCanonicalDecl then
      Outcome.again { c with fDescend := true }
    else
      let c1 : Cursor :=
        if d.kind != DeclKind.Enum && !d.decls.isEmpty then { c with fDescend := true } else c
      Outcome.done 1
        { c1 with fDecl := some d,
                  fType := if d.isRecordDecl then some (ctx.getRecordType d) else none }
  else
    Outcome.again c

/-- Lines 621-700: the `while (true)` loop, at most `fuel` iterations.  `none`
stands for no result: the bound was too small, or the loop head was reached with
a null iterator (which the source dereferences). -/
def loop (ctx : ASTContext) : Nat → Cursor → Option (Int × Cursor)
  | 0, _ => none
  | fuel + 1, c =>
    match c.fIter with
    | [] => none
    | d :: rest =>
      if c.fFirstTime then
        match examine ctx { c with fFirstTime := false } d with
        | Outcome.done r c1 => some (r, c1)
        | Outcome.again c1 => loop ctx fuel c1
      else
        let c1 := fixPastEnd (advance c d rest)
        match c1.fIter with
        | [] => some (0, { c1 with fDecl := none, fType := none })
        | d1 :: _ =>
          match examine ctx c1 d1 with
          | Outcome.done r c2 => some (r, c2)
          | Outcome.again c2 => loop ctx fuel c2

/-- Result of a call of `InternalNext`: the returned `int`, the members after
the call, and what was sent to the diagnostic channel. -/
structure NextResult where
  ret : Int
  cursor : Cursor
  errors : List Diag

/-- The name printed by lines 607-614. -/
def diagName (d : Decl) : String :=
  if d.isNamedDecl then d.info.name else ""

/-- The message of lines 615-616. -/
def notPreparedError (d : Decl) : Diag :=
  { location := "TClingClassInfo::InternalNext",
    message := "Next called but iteration not prepared for " ++ diagName d ++ "!" }

/-- Errors of lines 606-617. -/
def entryErrors (c : Cursor) : List Diag :=
  match c.fFirstTime, c.fDecl with
  | true, some d => [notPreparedError d]
  | _, _ => []

/-- Embedding of `TClingClassInfo::InternalNext()`. -/
def InternalNext (ctx : ASTContext) (c : Cursor) : Option NextResult :=
  match c.fIter with
  | [] => some { ret := 0, cursor := c, errors := entryErrors c }
  | _ :: _ =>
    match loop ctx (work c) c with
    | none => none
    | some r => some { ret := r.1, cursor := r.2, errors := [] }

/-- Embedding of `TClingClassInfo::Next()`. -/
def Next (ctx : ASTContext) (c : Cursor) : Option NextResult :=
  InternalNext ctx c

/-- Embedding of `TClingClassInfo::TClingClassInfo(cling::Interpreter*)`, for the translation
unit `TU`. -/
def defaultCtor (ctx : ASTContext) (TU : Decl) : Option Cursor :=
  match InternalNext ctx
      { fFirstTime := true, fDescend := false, fIter := TU.decls, fIterStack := [],
        fDecl := none, fType := none } with
  | none => none
  | some r => some { r.cursor with fFirstTime := true, fDecl := some TU, fType := none }

/-- A client that calls `Next()` until it first returns false, at most `n`
calls: the handles `fDecl` after each call that returned true, and the cursor
after the call that returned false. -/
def nextUntilFalse (ctx : ASTContext) : Nat → Cursor → Option (List (Option Decl) × Cursor)
  | 0, _ => none
  | n + 1, c =>
    match Next ctx c with
    | none => none
    | some r =>
      if r.ret = 0 then some ([], r.cursor)
      else
        match nextUntilFalse ctx n r.cursor with
        | none => none
        | some p => some (r.cursor.fDecl :: p.1, p.2)

/-- A client that calls `Next()` `n` more times: what each call returned and
reported, in order, and the cursor after the last call. -/
def callsAfter (ctx : ASTContext) : Nat → Cursor → Option (List (Int × List Diag) × Cursor)
  | 0, c => some ([], c)
  | n + 1, c =>
    match Next ctx c with
    | none => none
    | some r =>
      match callsAfter ctx n r.cursor with
      | none => none
      | some p => some ((r.ret, r.errors) :: p.1, p.2)

/-! ## The listing the specification describes -/

/-- Whether the kind is one of the four the traversal stops on: namespace,
enum, record, template-specialized record. -/
def isClassLikeKind (k : DeclKind) : Bool :=
  k == DeclKind.Namespace || k == DeclKind.Enum || k == DeclKind.CXXRecord ||
    k == DeclKind.ClassTemplateSpecialization

mutual
/-- The specification's listing of one declaration: nothing for a declaration
of another kind or for an enum/record/specialization that is not a complete
definition; the listing of the children for a non-canonical namespace
redeclaration; otherwise the declaration followed, unless it is an enum, by the
listing of its children. -/
def specVisit : Decl → List Decl
  | Decl.mk i ds =>
    if !isClassLikeKind i.kind then []
    else if i.kind != DeclKind.Namespace && !i.isCompleteDefinition then []
    else if i.kind == DeclKind.Namespace && !i.isCanonicalDecl then specListing ds
    else Decl.mk i ds :: (if i.kind == DeclKind.Enum then [] else specListing ds)
/-- The specification's filtered depth-first pre-order listing of a scope: its
declarations in order. -/
def specListing : List Decl → List Decl
  | [] => []
  | d :: ds => specVisit d ++ specListing ds
end

/-- What the specification allows `Next()` to stop on: the first (canonical)
definition of a namespace, a complete enum, a complete record or a complete
template-specialized record. -/
def Yieldable (d : Decl) : Prop :=
  (d.kind = DeclKind.Namespace ∧ d.info.isCanonicalDecl = true) ∨
  (d.kind = DeclKind.Enum ∧ d.info.isCompleteDefinition = true) ∨
  ((d.kind = DeclKind.CXXRecord ∨ d.kind = DeclKind.ClassTemplateSpecialization) ∧
    d.info.isCompleteDefinition = true)

instance (d : Decl) : Decidable (Yieldable d) := by
  unfold Yieldable; infer_instance

mutual
/-- Every node of a tree, parent before children. -/
def declNodes : Decl → List Decl
  | Decl.mk i ds => Decl.mk i ds :: forestNodes ds
/-- Every node of a forest in depth-first pre-order. -/
def forestNodes : List Decl → List Decl
  | [] => []
  | d :: ds => declNodes d ++ forestNodes ds
end

/-! ## Validity and loadedness -/

/-- Embedding of `TClingClassInfo::IsValid()`. -/
def IsValid (c : Cursor) : Bool :=
  match c.fType with
  | some t => c.fDecl.isSome && !t.isIncompleteType
  | none => c.fDecl.isSome

/-- Embedding of `TClingClassInfo::IsLoaded()`. -/
def IsLoaded (c : Cursor) : Bool :=
  if !IsValid c then false
  else
    match c.fDecl with
    | none => false
    | some d =>
      if d.isRecordDecl then
        if !d.info.hasDefinition then false else true
      else if d.isTagDecl && !d.info.hasDefinition then false
      else true

/-! ## Construction by name and re-initialisation -/

/-- A `clang::CXXMethodDecl` as far as the code looks at it. -/
structure CXXMethodDecl where
  /-- Address of the record `getParent()` returns. -/
  getParent : Nat
  deriving DecidableEq, Repr

/-- A `clang::FunctionDecl` as far as the code looks at it. -/
structure FunctionDecl where
  /-- Address of the node. -/
  addr : Nat
  /-- Result of `llvm::dyn_cast<CXXMethodDecl>`. -/
  asCXXMethodDecl : Option CXXMethodDecl
  deriving DecidableEq, Repr

/-- The part of `cling::LookupHelper` that the code uses. -/
structure LookupHelper where
  /-- Result of `findScope(name, &type, true)`: the returned declaration and the
  value of `type` after the call, given its value before the call. -/
  findScope : String → Option ClangType → Option Decl × Option ClangType
  /-- Result of `findFunctionArgs(scope, name, arglist, objectIsConst)`. -/
  findFunctionArgs : Decl → String → String → Bool → Option FunctionDecl
  /-- Result of `findFunctionProto(scope, name, proto, objectIsConst)`. -/
  findFunctionProto : Decl → String → String → Bool → Option FunctionDecl
  /-- Result of `matchFunctionProto(scope, name, proto, objectIsConst)`. -/
  matchFunctionProto : Decl → String → String → Bool → Option FunctionDecl

/-- Lines 99-113 and 466-477: look the name up, then the name with `std::`
inserted, then fall back on the declaration of the tag type. -/
def lookupScope (lh : LookupHelper) (InsertStd : String → String) (name : String) :
    Option Decl × Option ClangType :=
  let r1 := lh.findScope name none
  let r2 := if r1.1.isNone then lh.findScope (InsertStd name) r1.2 else r1
  match r2.1, r2.2 with
  | none, some t =>
    match t.tagDecl with
    | some d => (some d, some t)
    | none => (none, some t)
  | decl, type => (decl, type)

/-- Embedding of `TClingClassInfo::TClingClassInfo(cling::Interpreter*, const char*)`. -/
def ctorByName (lh : LookupHelper) (InsertStd : String → String) (name : String) : Cursor :=
  { fFirstTime := true, fDescend := false, fIter := [], fIterStack := [],
    fDecl := (lookupScope lh InsertStd name).1, fType := (lookupScope lh InsertStd name).2 }

/-- Embedding of `TClingClassInfo::Init(const char*)`.  Every mutable member is overwritten,
so the cursor before the call does not matter. -/
def InitName (lh : LookupHelper) (InsertStd : String → String) (_c : Cursor) (name : String) :
    Cursor :=
  { fFirstTime := true, fDescend := false, fIter := [], fIterStack := [],
    fDecl := (lookupScope lh InsertStd name).1, fType := (lookupScope lh InsertStd name).2 }

/-- Embedding of `TClingClassInfo::Init(const Decl*)`; the argument may be the null pointer. -/
def InitDecl (_c : Cursor) (decl : Option Decl) : Cursor :=
  { fFirstTime := true, fDescend := false, fIter := [], fIterStack := [],
    fDecl := decl, fType := none }

/-! ## ClassProperty -/

/-- The names of the `EClassProperty` constants that `ClassProperty()` uses. -/
inductive ClassFlag where
  | kClassIsValid
  | kClassHasExplicitCtor
  | kClassHasImplicitCtor
  | kClassHasDefaultCtor
  | kClassHasAssignOpr
  | kClassHasExplicitDtor
  | kClassHasImplicitDtor
  | kClassHasVirtual
  | kClassIsAbstract
  deriving DecidableEq, Repr, Fintype

/-- Modelled from the spec: the values of the `EClassProperty` constants of
`TDictionary.h`, which is not among the sources.  The specification describes
the mask as a set of independent boolean flags, so every constant is a single
bit; the position of the bit of each constant is a parameter. -/
structure EClassProperty where
  bit : ClassFlag → Nat

namespace EClassProperty

/-- The value of a constant: the single bit at its position. -/
def value (K : EClassProperty) (f : ClassFlag) : Nat := 2 ^ K.bit f

/-- The flags are independent: no two constants share a bit. -/
def Independent (K : EClassProperty) : Prop := Function.Injective K.bit

instance (K : EClassProperty) : Decidable K.Independent := by
  unfold Independent; infer_instance

end EClassProperty

/-- Whether the mask has the bit of the constant `f`. -/
def hasFlag (K : EClassProperty) (mask : Nat) (f : ClassFlag) : Bool :=
  mask.testBit (K.bit f)

/-- Lines 140-174 of `ClassProperty()`: the mask of a class or struct `d`. -/
def classOrStructProperty (K : EClassProperty) (d : Decl) : Nat :=
  let property : Nat := 0
  let property := property ||| K.value ClassFlag.kClassIsValid
  let property :=
    if d.info.isAbstract then property ||| K.value ClassFlag.kClassIsAbstract else property
  let property :=
    if d.info.hasUserDeclaredConstructor then
      property ||| K.value ClassFlag.kClassHasExplicitCtor
    else property
  let property :=
    if !d.info.hasUserDeclaredConstructor && !d.info.hasTrivialDefaultConstructor then
      property ||| K.value ClassFlag.kClassHasImplicitCtor
    else property
  let property :=
    if d.info.hasUserProvidedDefaultConstructor || !d.info.hasTrivialDefaultConstructor then
      property ||| K.value ClassFlag.kClassHasDefaultCtor
    else property
  let property :=
    if d.info.hasUserDeclaredDestructor then
      property ||| K.value ClassFlag.kClassHasExplicitDtor
    else if !d.info.hasTrivialDestructor then
      property ||| K.value ClassFlag.kClassHasImplicitDtor
    else property
  let property :=
    if d.info.hasUserDeclaredCopyAssignment then
      property ||| K.value ClassFlag.kClassHasAssignOpr
    else property
  let property :=
    if d.info.isPolymorphic then property ||| K.value ClassFlag.kClassHasVirtual else property
  property

/-- Embedding of `TClingClassInfo::ClassProperty()`.  `IsValid()` is false whenever `fDecl`
is null, so the null handle returns 0 like every invalid cursor. -/
def ClassProperty (K : EClassProperty) (c : Cursor) : Nat :=
  match c.fDecl with
  | none => 0
  | some d =>
    if !IsValid c then 0
    else if !d.isRecordDecl then 0
    else if d.isUnion then 0
    else classOrStructProperty K d

/-! ## GetOffset and GetMethodWithArgs -/

/-- One step of the enumeration `while (bi.Next(0))` of `TClingBaseClassInfo`:
the address of `bi.GetBase()->GetDecl()` and the value of `bi.Offset()`. -/
structure BaseStep where
  baseDecl : Nat
  Offset : Int
  deriving DecidableEq, Repr

/-- Lines 384-392: the loop over the enumerated bases, with `offset` as it
stands; the first base whose declaration is `definer` sets it and breaks. -/
def scanBases (definer : Nat) : List BaseStep → Int → Int
  | [], offset => offset
  | b :: bs, offset => if b.baseDecl = definer then b.Offset else scanBases definer bs offset

/-- Embedding of `TClingClassInfo::GetOffset(const CXXMethodDecl*)`.  `baseClasses` is the
enumeration `TClingBaseClassInfo` produces for the accessor.  `none` stands for
the failure of `llvm::cast<CXXRecordDecl>(fDecl)`. -/
def GetOffset (baseClasses : Decl → List BaseStep) (c : Cursor) (md : CXXMethodDecl) :
    Option Int :=
  let offset : Int := 0
  let definer := md.getParent
  match c.fDecl with
  | none => none
  | some accessor =>
    if !accessor.isRecordDecl then none
    else if definer ≠ accessor.addr then
      some (scanBases definer (baseClasses accessor) offset)
    else some offset

/-- Modelled from the spec: the class `TClingMethodInfo`, which is not among
the sources.  The specification calls the result of a failed resolution an
explicitly invalid method handle: the handle is invalid as built by
`TClingMethodInfo tmi(fInterp)`, and designates a function after `tmi.Init(fd)`. -/
structure TClingMethodInfo where
  fMethodDecl : Option FunctionDecl
  deriving DecidableEq, Repr

/-- Embedding of `TClingMethodInfo::IsValid()`. -/
def TClingMethodInfo.IsValid (m : TClingMethodInfo) : Bool := m.fMethodDecl.isSome

/-- Lines 292-299 and 343-350: write the this-pointer adjustment through
`poffset` when it is not null and `fd` is a member function.  `poffset` is
`none` for the null pointer and `some v` for a pointer to a `long` holding `v`;
the result is the `long` after the write.  The outer `none` is the failure of
`GetOffset`. -/
def writeOffset (baseClasses : Decl → List BaseStep) (c : Cursor) (fd : FunctionDecl)
    (poffset : Option Int) : Option (Option Int) :=
  match poffset with
  | none => some none
  | some v =>
    match fd.asCXXMethodDecl with
    | none => some (some v)
    | some md =>
      match GetOffset baseClasses c md with
      | none => none
      | some off => some (some off)

/-- Embedding of `TClingClassInfo::GetMethodWithArgs(fname, arglist, objectIsConst, poffset, ...)`:
the returned method info and the `long` behind `poffset` after the call.
`IsLoaded()` is false when `fDecl` is null, so the null handle takes the return
of line 322.  The test for a constructor name at lines 328-335 has an empty body
and is left out. -/
def GetMethodWithArgs (lh : LookupHelper) (baseClasses : Decl → List BaseStep) (c : Cursor)
    (fname arglist : String) (objectIsConst : Bool) (poffset : Option Int) :
    Option (TClingMethodInfo × Option Int) :=
  let poffset := poffset.map fun _ => (0 : Int)
  match c.fDecl with
  | none => some ({ fMethodDecl := none }, poffset)
  | some fDecl =>
    if !IsLoaded c then some ({ fMethodDecl := none }, poffset)
    else
      let arglist := if arglist = ")" then "" else arglist
      match lh.findFunctionArgs fDecl fname arglist objectIsConst with
      | none => some ({ fMethodDecl := none }, poffset)
      | some fd =>
        match writeOffset baseClasses c fd poffset with
        | none => none
        | some out => some ({ fMethodDecl := some fd }, out)

/-! ## GetMethod and IsValidMethod -/

/-- The match mode `EFunctionMatchMode`: the two modes the code knows, and any
other value of the enumeration type. -/
inductive EFunctionMatchMode where
  | kExactMatch
  | kConversionMatch
  | other (value : Int)
  deriving DecidableEq, Repr

/-- Result of a call of `GetMethod`: the returned method info, the `long`
behind `poffset` after the call, and what was sent to the diagnostic channel. -/
structure MethodResult where
  info : TClingMethodInfo
  poffset : Option Int
  errors : List Diag
  deriving DecidableEq, Repr

/-- The message of lines 282-283. -/
def unsupportedModeError (value : Int) : Diag :=
  { location := "TClingClassInfo::GetMethod",
    message := "The MatchMode " ++ toString value ++ " is not supported." }

/-- Lines 287-302: the return for the function the matcher found, if any. -/
def finishGetMethod (baseClasses : Decl → List BaseStep) (c : Cursor)
    (found : Option FunctionDecl) (poffset : Option Int) : Option MethodResult :=
  match found with
  | none => some { info := { fMethodDecl := none }, poffset := poffset, errors := [] }
  | some fd =>
    match writeOffset baseClasses c fd poffset with
    | none => none
    | some out => some { info := { fMethodDecl := some fd }, poffset := out, errors := [] }

/-- Embedding of `TClingClassInfo::GetMethod(fname, proto, objectIsConst, poffset, mode, imode)`.
`IsLoaded()` is false when `fDecl` is null, so the null handle takes the return
of line 265.  The test for a constructor name at lines 267-274 has an empty body
and the parameter `imode` is not used; both are left out. -/
def GetMethod (lh : LookupHelper) (baseClasses : Decl → List BaseStep) (c : Cursor)
    (fname proto : String) (objectIsConst : Bool) (poffset : Option Int)
    (mode : EFunctionMatchMode) : Option MethodResult :=
  let poffset := poffset.map fun _ => (0 : Int)
  match c.fDecl with
  | none => some { info := { fMethodDecl := none }, poffset := poffset, errors := [] }
  | some fDecl =>
    if !IsLoaded c then
      some { info := { fMethodDecl := none }, poffset := poffset, errors := [] }
    else
      match mode with
      | EFunctionMatchMode.kConversionMatch =>
        finishGetMethod baseClasses c (lh.findFunctionProto fDecl fname proto objectIsConst)
          poffset
      | EFunctionMatchMode.kExactMatch =>
        finishGetMethod baseClasses c (lh.matchFunctionProto fDecl fname proto objectIsConst)
          poffset
      | EFunctionMatchMode.other value =>
        some { info := { fMethodDecl := none }, poffset := poffset,
               errors := [unsupportedModeError value] }

/-- Embedding of `TClingClassInfo::GetMethod(fname, proto, poffset, mode, imode)`, the overload
without `objectIsConst`. -/
def GetMethodNonConst (lh : LookupHelper) (baseClasses : Decl → List BaseStep) (c : Cursor)
    (fname proto : String) (poffset : Option Int) (mode : EFunctionMatchMode) :
    Option MethodResult :=
  GetMethod lh baseClasses c fname proto false poffset mode

/-- Result of a call of `IsValidMethod`: the returned `bool`, the `long` behind
`offset` after the call, and what was sent to the diagnostic channel. -/
structure ValidMethodResult where
  ret : Bool
  offset : Option Int
  errors : List Diag
  deriving DecidableEq, Repr

/-- Embedding of `TClingClassInfo::IsValidMethod(method, proto, objectIsConst, offset, mode)`. -/
def IsValidMethod (lh : LookupHelper) (baseClasses : Decl → List BaseStep) (c : Cursor)
    (method proto : String) (_objectIsConst : Bool) (offset : Option Int)
    (mode : EFunctionMatchMode) : Option ValidMethodResult :=
  if !IsLoaded c then some { ret := false, offset := offset, errors := [] }
  else
    let offset := offset.map fun _ => (0 : Int)
    match GetMethodNonConst lh baseClasses c method proto offset mode with
    | none => none
    | some mi => some { ret := mi.info.IsValid, offset := mi.poffset, errors := mi.errors }

/-! ## HasDefaultConstructor -/

/-- Whether the access specifier is neither `AS_public` nor `AS_none`. -/
def notPublicNorNone (a : AccessSpecifier) : Bool :=
  a != AccessSpecifier.AS_public && a != AccessSpecifier.AS_none

/-- Lines 419-429: the loop over the template arguments of a `pair`; true when
the loop returns false from the function. -/
def pairArgBlocks : List TemplateArgType → Bool
  | [] => false
  | arg :: args =>
    if arg.isFundamentalType || arg.isEnumeralType then pairArgBlocks args
    else if notPublicNorNone arg.recordAccess then true
    else pairArgBlocks args

/-- Whether `llvm::dyn_cast<ClassTemplateSpecializationDecl>` succeeds. -/
def Decl.isClassTemplateSpecializationDecl (d : Decl) : Bool :=
  d.kind == DeclKind.ClassTemplateSpecialization ||
    d.kind == DeclKind.ClassTemplatePartialSpecialization

/-- Lines 434-447: the loop over the constructors. -/
def scanCtors : List CtorInfo → Bool
  | [] => false
  | k :: ks =>
    if k.getAccess == AccessSpecifier.AS_public then
      if k.getNumParams == 0 then true
      else if k.getMinRequiredArguments == 0 then true
      else scanCtors ks
    else scanCtors ks

/-- Embedding of `TClingClassInfo::HasDefaultConstructor()`.  `IsLoaded()` is false when
`fDecl` is null, so the null handle returns false. -/
def HasDefaultConstructor (c : Cursor) : Bool :=
  match c.fDecl with
  | none => false
  | some d =>
    if !IsLoaded c then false
    else if !d.isRecordDecl then true
    else if notPublicNorNone d.info.getAccess then false
    else if d.info.getIdentifier == some "pair" && d.isClassTemplateSpecializationDecl &&
        pairArgBlocks d.info.templateArgs then false
    else scanCtors d.info.ctors

/-! ## Construction and destruction through the interpreter -/

/-- The result `cling::Interpreter::CompilationResult` of a submission. -/
inductive CompilationResult where
  | kSuccess
  | kFailure
  | kMoreInputExpected
  deriving DecidableEq, Repr

/-- The execution collaborator `cling::Interpreter`.  What it answers may depend
on everything submitted before, so each entry point takes the snippets
submitted so far, oldest first. -/
structure Interpreter where
  /-- Result of `evaluate(code, val)`: the compilation result and the pointer
  `llvm::GVTOP(val.get().getGV())` carried by the value. -/
  evaluate : List String → String → CompilationResult × Nat
  /-- Result of `execute(code)`. -/
  execute : List String → String → CompilationResult

/-- The function `FullyQualifiedName` of lines 58-67. -/
def FullyQualifiedName (decl : Decl) : String :=
  if decl.isNamedDecl then decl.info.qualifiedName else ""

/-- Lines 718-726 and their three copies: submit the snippet to `evaluate` and
return the null pointer (0) on any result but `kSuccess`, otherwise the pointer
of the value; with the snippets submitted afterwards. -/
def evaluateNew (I : Interpreter) (log : List String) (code : String) : Nat × List String :=
  if (I.evaluate log code).1 != CompilationResult.kSuccess then (0, log ++ [code])
  else ((I.evaluate log code).2, log ++ [code])

/-- Embedding of `TClingClassInfo::New()`: the returned pointer (0 is null) and the snippets
submitted after the call. -/
def New (I : Interpreter) (c : Cursor) (log : List String) : Nat × List String :=
  match c.fDecl with
  | none => (0, log)
  | some fDecl =>
    if !HasDefaultConstructor c then (0, log)
    else evaluateNew I log ("new " ++ FullyQualifiedName fDecl ++ ";")

/-- Embedding of `TClingClassInfo::New(int n)`. -/
def New_n (I : Interpreter) (c : Cursor) (n : Int) (log : List String) : Nat × List String :=
  match c.fDecl with
  | none => (0, log)
  | some fDecl =>
    if !HasDefaultConstructor c then (0, log)
    else evaluateNew I log ("new " ++ FullyQualifiedName fDecl ++ "[" ++ toString n ++ "];")

/-- Embedding of `TClingClassInfo::New(int n, void *arena)`; `arena` is the address as an
`unsigned long`. -/
def New_n_arena (I : Interpreter) (c : Cursor) (n : Int) (arena : Nat) (log : List String) :
    Nat × List String :=
  match c.fDecl with
  | none => (0, log)
  | some fDecl =>
    if !HasDefaultConstructor c then (0, log)
    else
      evaluateNew I log ("new ((void*)" ++ toString arena ++ ") " ++ FullyQualifiedName fDecl ++
        "[" ++ toString n ++ "];")

/-- Embedding of `TClingClassInfo::New(void *arena)`. -/
def New_arena (I : Interpreter) (c : Cursor) (arena : Nat) (log : List String) :
    Nat × List String :=
  match c.fDecl with
  | none => (0, log)
  | some fDecl =>
    if !HasDefaultConstructor c then (0, log)
    else
      evaluateNew I log ("new ((void*)" ++ toString arena ++ ") " ++ FullyQualifiedName fDecl ++
        ";")

/-- Lines 187-192 and their copies: submit the snippet to `execute`; the
function returns whatever the result is. -/
def executeVoid (I : Interpreter) (log : List String) (code : String) : List String :=
  if I.execute log code != CompilationResult.kSuccess then log ++ [code]
  else log ++ [code]

/-- Embedding of `TClingClassInfo::Delete(void *arena)`: the snippets submitted after the
call. -/
def Delete (I : Interpreter) (c : Cursor) (arena : Nat) (log : List String) : List String :=
  match c.fDecl with
  | none => log
  | some fDecl =>
    if !IsLoaded c then log
    else executeVoid I log ("delete (" ++ FullyQualifiedName fDecl ++ "*)" ++ toString arena ++ ";")

/-- The message of line 206. -/
def placementDeleteArrayError : Diag :=
  { location := "DeleteArray", message := "Placement delete of an array is unsupported!\n" }

/-- Embedding of `TClingClassInfo::DeleteArray(void *arena, bool dtorOnly)`: the snippets
submitted after the call and what was sent to the diagnostic channel. -/
def DeleteArray (I : Interpreter) (c : Cursor) (arena : Nat) (dtorOnly : Bool)
    (log : List String) : List String × List Diag :=
  match c.fDecl with
  | none => (log, [])
  | some fDecl =>
    if !IsLoaded c then (log, [])
    else if dtorOnly then (log, [placementDeleteArrayError])
    else
      (executeVoid I log
        ("delete[] (" ++ FullyQualifiedName fDecl ++ "*)" ++ toString arena ++ ";"), [])

/-- The message of lines 230-231. -/
def unnamedDestructError : Diag :=
  { location := "TClingClassInfo::Destruct",
    message := "cannot destruct object of unnamed declaration." }

/-- Embedding of `TClingClassInfo::Destruct(void *arena)`: the snippets submitted after the
call and what was sent to the diagnostic channel. -/
def Destruct (I : Interpreter) (c : Cursor) (arena : Nat) (log : List String) :
    List String × List Diag :=
  match c.fDecl with
  | none => (log, [])
  | some fDecl =>
    if !IsLoaded c then (log, [])
    else
      match fDecl.isNamedDecl, fDecl.info.getIdentifier with
      | true, some ident =>
        (executeVoid I log
          ("((" ++ FullyQualifiedName fDecl ++ "*)" ++ toString arena ++ ")->" ++
            FullyQualifiedName fDecl ++ "::~" ++ ident ++ "();"), [])
      | _, _ => (log, [unnamedDestructError])

/-! ## The offset the specification describes -/

/-- The specification's this-pointer adjustment: zero when accessor and definer
are the same entity; otherwise the offset of the first enumerated base whose
handle equals the definer, and zero when there is none. -/
def specOffset (accessor definer : Nat) (bases : List BaseStep) : Int :=
  if definer = accessor then 0
  else
    match bases.find? (fun b => b.baseDecl == definer) with
    | some b => b.Offset
    | none => 0

/-! ## The matcher the specification describes -/

/-- The specification's publicly reachable default constructor of a record: the
record is not a protected or private class, it is not a specialization named
`pair` with a template argument that is neither fundamental nor an enum and
whose record is protected or private, and it declares a public constructor that
takes no parameter or has no required argument. -/
def PubliclyReachableDefaultCtor (d : Decl) : Prop :=
  (d.info.getAccess = AccessSpecifier.AS_public ∨
    d.info.getAccess = AccessSpecifier.AS_none) ∧
  ¬ (d.info.getIdentifier = some "pair" ∧ d.isClassTemplateSpecializationDecl = true ∧
      ∃ a ∈ d.info.templateArgs, a.isFundamentalType = false ∧ a.isEnumeralType = false ∧
        a.recordAccess ≠ AccessSpecifier.AS_public ∧
        a.recordAccess ≠ AccessSpecifier.AS_none) ∧
  ∃ k ∈ d.info.ctors, k.getAccess = AccessSpecifier.AS_public ∧
    (k.getNumParams = 0 ∨ k.getMinRequiredArguments = 0)

instance (d : Decl) : Decidable (PubliclyReachableDefaultCtor d) := by
  unfold PubliclyReachableDefaultCtor; infer_instance

/-- The specification's fully qualified entity name: the qualified name the
declaration tree gives a named declaration; an entity that is not a named
declaration (the translation unit) has the empty name. -/
def specEntityName (d : Decl) : String :=
  match d.isNamedDecl with
  | true => d.info.qualifiedName
  | false => ""

/-- The specification's outcome of a construct operation that submits `code`:
exactly that snippet is submitted, and the result is the null pointer (0)
whenever the collaborator reports a result other than success, otherwise the
pointer carried by its result value. -/
def specConstruct (I : Interpreter) (log : List String) (code : String) : Nat × List String :=
  (match I.evaluate log code with
   | (CompilationResult.kSuccess, p) => p
   | (_, _) => 0,
   log ++ [code])

/-! ## Auxiliary definitions of the proofs -/

/-- Listing still owed by the suspended iterators of the stack. -/
def stackPending : List (List Decl) → List Decl
  | [] => []
  | e :: st => specListing e.tail ++ stackPending st

/-- Listing still owed by a cursor that has already been stepped. -/
def pending (c : Cursor) : List Decl :=
  match c.fIter with
  | [] => []
  | d :: rest =>
    (if c.fDescend then specListing d.decls else []) ++ specListing rest ++
      stackPending c.fIterStack

/-- The value `fDescend` takes when the traversal stops on `d`. -/
def descendFlag (d : Decl) : Bool :=
  d.kind != DeclKind.Enum && !d.decls.isEmpty

/-- The cursor `examine` returns when it stops on `d`. -/
def stopCursor (ctx : ASTContext) (c : Cursor) (d : Decl) : Cursor :=
  { fFirstTime := c.fFirstTime,
    fDescend := c.fDescend || descendFlag d,
    fIter := c.fIter,
    fIterStack := c.fIterStack,
    fDecl := some d,
    fType := if d.isRecordDecl then some (ctx.getRecordType d) else none }

/-- What a call of the loop must produce when `l` is the listing still owed:
final termination when `l` is empty; otherwise a stop on the head of `l`, with
the tail still owed. -/
def StepsTo (l : List Decl) (res : Int × Cursor) : Prop :=
  match l with
  | [] => res.1 = 0 ∧ res.2.fIter = [] ∧ res.2.fIterStack = [] ∧ res.2.fDecl = none ∧
      res.2.fType = none ∧ res.2.fFirstTime = false
  | x :: xs => res.1 = 1 ∧ res.2.fDecl = some x ∧ res.2.fFirstTime = false ∧
      (∃ rest, res.2.fIter = x :: rest) ∧ res.2.fDescend = descendFlag x ∧
      Yieldable x ∧ pending res.2 = xs

/-- The pass over lines 662-699 followed by the rest of the loop. -/
def afterExamine (ctx : ASTContext) (fuel : Nat) (c : Cursor) (d : Decl) :
    Option (Int × Cursor) :=
  match examine ctx c d with
  | Outcome.done r c1 => some (r, c1)
  | Outcome.again c1 => loop ctx fuel c1

/-- Line 625: the cursor with `fFirstTime` cleared. -/
def clearFirst (c : Cursor) : Cursor :=
  { c with fFirstTime := false }

/-- The cursor the default constructor starts its internal call from. -/
def ctorStart (TU : Decl) : Cursor :=
  { fFirstTime := true, fDescend := false, fIter := TU.decls, fIterStack := [],
    fDecl := none, fType := none }

/-- Lines 78-92: what the default constructor does to the cursor after its
internal call. -/
def ctorFinish (TU : Decl) (c : Cursor) : Cursor :=
  { c with fFirstTime := true, fDecl := some TU, fType := none }

/-- What a call of the loop produces from any cursor: final termination, or a
stop on a declaration the specification allows, with at most `w` work left. -/
def Lands (w : Nat) (res : Int × Cursor) : Prop :=
  (res.1 = 0 ∧ res.2.fIter = [] ∧ res.2.fIterStack = [] ∧ res.2.fDecl = none ∧
    res.2.fType = none ∧ res.2.fFirstTime = false) ∨
  (res.1 = 1 ∧ (∃ x rest, res.2.fDecl = some x ∧ Yieldable x ∧ res.2.fIter = x :: rest) ∧
    res.2.fFirstTime = false ∧ work res.2 ≤ w)

/-! ## Example inputs -/

/-- An AST context whose record types are incomplete exactly when the
declaration has no definition. -/
def exampleCtx : ASTContext :=
  { getRecordType := fun d => { isIncompleteType := !d.info.hasDefinition, tagDecl := some d } }

/-- A declaration without children. -/
def leafDecl (a : Nat) (k : DeclKind) : Decl :=
  Decl.mk { addr := a, kind := k } []

/-- A forward declaration `class X;`. -/
def forwardDecl (a : Nat) : Decl :=
  Decl.mk { addr := a, kind := DeclKind.CXXRecord, isCompleteDefinition := false,
            isCanonicalDecl := true, hasDefinition := false } []

/-- A later redeclaration `namespace N { ... }` of a namespace. -/
def reopenedNamespace (a : Nat) (ds : List Decl) : Decl :=
  Decl.mk { addr := a, kind := DeclKind.Namespace, isCanonicalDecl := false } ds

/-- A translation unit with nested namespaces, records, an enum, a forward
declaration, a reopened namespace and a linkage specification. -/
def exampleTU : Decl :=
  Decl.mk { addr := 0, kind := DeclKind.TranslationUnit }
    [ leafDecl 1 DeclKind.Var,
      Decl.mk { addr := 2, kind := DeclKind.Namespace }
        [ Decl.mk { addr := 3, kind := DeclKind.CXXRecord }
            [ leafDecl 4 DeclKind.Field,
              Decl.mk { addr := 5, kind := DeclKind.Enum } [leafDecl 6 DeclKind.Var],
              forwardDecl 7,
              leafDecl 8 DeclKind.CXXRecord ],
          leafDecl 9 DeclKind.Function ],
      reopenedNamespace 10 [leafDecl 11 DeclKind.CXXRecord, reopenedNamespace 12 []],
      Decl.mk { addr := 13, kind := DeclKind.LinkageSpec } [leafDecl 14 DeclKind.CXXRecord],
      Decl.mk { addr := 15, kind := DeclKind.ClassTemplateSpecialization }
        [leafDecl 16 DeclKind.Field] ]

/-- A translation unit that declares a variable and a function and nothing the
traversal stops on: `int x; void f();`. -/
def plainTU : Decl :=
  Decl.mk { addr := 0, kind := DeclKind.TranslationUnit }
    [leafDecl 1 DeclKind.Var, leafDecl 2 DeclKind.Function]

/-- A lookup helper that finds nothing. -/
def lookupNothing : LookupHelper :=
  { findScope := fun _ _ => (none, none),
    findFunctionArgs := fun _ _ _ _ => none,
    findFunctionProto := fun _ _ _ _ => none,
    matchFunctionProto := fun _ _ _ _ => none }

/-- The bit positions of the constants as ROOT defines them: `0x1`, `0x10`,
`0x20`, `0x40`, `0x80`, `0x100`, `0x200`, `0x1000`, `0x2000`. -/
def rootBits : EClassProperty :=
  { bit := fun f =>
      match f with
      | ClassFlag.kClassIsValid => 0
      | ClassFlag.kClassHasExplicitCtor => 4
      | ClassFlag.kClassHasImplicitCtor => 5
      | ClassFlag.kClassHasDefaultCtor => 6
      | ClassFlag.kClassHasAssignOpr => 7
      | ClassFlag.kClassHasExplicitDtor => 8
      | ClassFlag.kClassHasImplicitDtor => 9
      | ClassFlag.kClassHasVirtual => 12
      | ClassFlag.kClassIsAbstract => 13 }

/-- A cursor positioned on the declaration `d`, as `Init(const Decl*)` leaves it. -/
def cursorOn (d : Decl) : Cursor :=
  InitDecl (ctorByName lookupNothing id "") (some d)

/-- The declaration `union U { U(); int i; float f; };`. -/
def unionWithCtor : Decl :=
  Decl.mk { addr := 20, kind := DeclKind.CXXRecord, name := "U", tagKind := TagKind.Union,
            hasUserDeclaredConstructor := true, hasTrivialDefaultConstructor := false,
            hasUserProvidedDefaultConstructor := true } [leafDecl 21 DeclKind.Field]

/-- The declaration `class A { public: A(int); virtual ~A(); };`. -/
def classWithCtor : Decl :=
  Decl.mk { addr := 30, kind := DeclKind.CXXRecord, name := "A", tagKind := TagKind.Class,
            hasUserDeclaredConstructor := true, hasTrivialDefaultConstructor := false,
            hasUserDeclaredDestructor := true, hasTrivialDestructor := false,
            isPolymorphic := true } []

/-- The declaration `struct Base { void f(); };` -/
def baseDecl : Decl :=
  Decl.mk { addr := 50, kind := DeclKind.CXXRecord, name := "Base", tagKind := TagKind.Struct }
    [leafDecl 52 DeclKind.CXXMethod]

/-- The declaration `struct Derived : Base { virtual ~Derived(); };`: the `Base` subobject lies
behind the virtual table pointer. -/
def derivedDecl : Decl :=
  Decl.mk { addr := 51, kind := DeclKind.CXXRecord, name := "Derived",
            tagKind := TagKind.Struct, hasUserDeclaredDestructor := true,
            hasTrivialDestructor := false, isPolymorphic := true } []

/-- The base-class enumeration of the chain `Derived : Base`: `Base` lies at
offset 8 in `Derived`. -/
def chainBases (d : Decl) : List BaseStep :=
  if d.addr = derivedDecl.addr then [{ baseDecl := baseDecl.addr, Offset := 8 }] else []

/-- The member function `Base::f`. -/
def baseMethod : CXXMethodDecl := { getParent := baseDecl.addr }

/-- The declaration `namespace ns { struct Pod { int x; }; }`, with its implicit
default constructor declared. -/
def podStruct : Decl :=
  Decl.mk { addr := 60, kind := DeclKind.CXXRecord, name := "Pod", qualifiedName := "ns::Pod",
            tagKind := TagKind.Struct, getIdentifier := some "Pod",
            ctors := [{ getAccess := AccessSpecifier.AS_public, getNumParams := 0,
                        getMinRequiredArguments := 0 }] } [leafDecl 61 DeclKind.Field]

/-- The declaration `class P { public: P(int); };`: the only declared
constructor is public and has a required parameter. -/
def classParamCtor : Decl :=
  Decl.mk { addr := 62, kind := DeclKind.CXXRecord, name := "P", qualifiedName := "P",
            tagKind := TagKind.Class, getIdentifier := some "P",
            hasUserDeclaredConstructor := true, hasTrivialDefaultConstructor := false,
            ctors := [{ getAccess := AccessSpecifier.AS_public, getNumParams := 1,
                        getMinRequiredArguments := 1 }] } []

/-- The declaration `class S { S() = default; };`: the default constructor is
trivial (defaulted on its first declaration) and private. -/
def privateTrivialCtor : Decl :=
  Decl.mk { addr := 63, kind := DeclKind.CXXRecord, name := "S", qualifiedName := "S",
            tagKind := TagKind.Class, getIdentifier := some "S",
            hasUserDeclaredConstructor := true, hasTrivialDefaultConstructor := true,
            hasTrivialDestructor := true,
            ctors := [{ getAccess := AccessSpecifier.AS_private, getNumParams := 0,
                        getMinRequiredArguments := 0 }] } []

/-- The member class `Inner` of
`class Outer { class Inner { public: Inner(); }; };`: its access is private and
its default constructor is public. -/
def privateInner : Decl :=
  Decl.mk { addr := 64, kind := DeclKind.CXXRecord, name := "Inner",
            qualifiedName := "Outer::Inner", tagKind := TagKind.Class,
            getIdentifier := some "Inner", getAccess := AccessSpecifier.AS_private,
            hasUserDeclaredConstructor := true, hasTrivialDefaultConstructor := false,
            hasUserProvidedDefaultConstructor := true,
            ctors := [{ getAccess := AccessSpecifier.AS_public, getNumParams := 0,
                        getMinRequiredArguments := 0 }] } []

/-- The specialization `std::pair<int, Outer::Inner>`, whose second argument is
the private member class `Inner`; the pair itself has a public default
constructor. -/
def pairOfPrivate : Decl :=
  Decl.mk { addr := 65, kind := DeclKind.ClassTemplateSpecialization,
            name := "pair<int, Outer::Inner>", qualifiedName := "std::pair<int, Outer::Inner>",
            tagKind := TagKind.Struct, getIdentifier := some "pair",
            ctors := [{ getAccess := AccessSpecifier.AS_public, getNumParams := 0,
                        getMinRequiredArguments := 0 }],
            templateArgs :=
              [{ isFundamentalType := true, isEnumeralType := false,
                 recordAccess := AccessSpecifier.AS_none },
               { isFundamentalType := false, isEnumeralType := false,
                 recordAccess := AccessSpecifier.AS_private }] } []

/-- An interpreter that accepts every snippet; every evaluation carries the
pointer 4096. -/
def acceptingInterp : Interpreter :=
  { evaluate := fun _ _ => (CompilationResult.kSuccess, 4096),
    execute := fun _ _ => CompilationResult.kSuccess }

/-- An interpreter that rejects every snippet, although the value of an
evaluation carries the pointer 4096. -/
def rejectingInterp : Interpreter :=
  { evaluate := fun _ _ => (CompilationResult.kFailure, 4096),
    execute := fun _ _ => CompilationResult.kFailure }

/-- A cursor whose name lookup found nothing: the handle is null. -/
def unboundCursor : Cursor :=
  ctorByName lookupNothing id "NoSuchClass"

/-- A lookup helper that finds the member function `Base::f` under every name
with conversion matching, and nothing with exact matching. -/
def lookupBaseMethod : LookupHelper :=
  { findScope := fun _ _ => (none, none),
    findFunctionArgs := fun _ _ _ _ => none,
    findFunctionProto := fun _ _ _ _ => some { addr := 52, asCXXMethodDecl := some baseMethod },
    matchFunctionProto := fun _ _ _ _ => none }

/-! ## Auxiliary facts -/

theorem specListing_nil : specListing [] = [] := by
  simp [specListing]

theorem specListing_cons (d : Decl) (ds : List Decl) :
    specListing (d :: ds) = specVisit d ++ specListing ds := by
  simp [specListing]

theorem forestSize_nil : forestSize [] = 0 := by
  simp [forestSize]

theorem forestSize_cons (d : Decl) (ds : List Decl) :
    forestSize (d :: ds) = 1 + forestSize d.decls + forestSize ds := by
  cases d with
  | mk i cs => simp [forestSize, declSize, Decl.decls]

theorem popPastEnd_cons (d : Decl) (it : List Decl) (st : List (List Decl)) :
    popPastEnd (d :: it) st = (d :: it, st) := by
  cases st <;> simp [popPastEnd]

theorem popPastEnd_nil_nil : popPastEnd [] [] = ([], []) := by
  simp [popPastEnd]

theorem popPastEnd_nil_cons (top : List Decl) (st : List (List Decl)) :
    popPastEnd [] (top :: st) = popPastEnd top.tail st := by
  simp [popPastEnd]

theorem popPastEnd_spec (st : List (List Decl)) : ∀ it : List Decl,
    ((popPastEnd it st).1 = [] → (popPastEnd it st).2 = []) ∧
    forestSize (popPastEnd it st).1 + stackWork (popPastEnd it st).2
      = forestSize it + stackWork st ∧
    specListing (popPastEnd it st).1 ++ stackPending (popPastEnd it st).2
      = specListing it ++ stackPending st := by
  induction st with
  | nil =>
    intro it
    cases it with
    | nil => simp [popPastEnd_nil_nil]
    | cons d it => simp [popPastEnd_cons]
  | cons top st ih =>
    intro it
    cases it with
    | nil =>
      rw [popPastEnd_nil_cons]
      obtain ⟨h1, h2, h3⟩ := ih top.tail
      refine ⟨h1, ?_, ?_⟩
      · rw [h2]; simp [stackWork, forestSize_nil]
      · rw [h3]; simp [stackPending, specListing_nil]
    | cons d it => simp [popPastEnd_cons]

/-- The three things `examine` can do, each with what the specification's
listing says about the same declaration. -/
theorem examine_cases (ctx : ASTContext) (c : Cursor) (d : Decl) :
    (examine ctx c d = Outcome.again c ∧ specVisit d = [] ∧ ¬ Yieldable d) ∨
    (examine ctx c d = Outcome.again { c with fDescend := true } ∧
      specVisit d = specListing d.decls ∧ ¬ Yieldable d) ∨
    (examine ctx c d = Outcome.done 1 (stopCursor ctx c d) ∧
      specVisit d = d :: (if descendFlag d then specListing d.decls else []) ∧
      Yieldable d) := by
  obtain ⟨ft, ds, it, st, dec, ty⟩ := c
  cases d with
  | mk i cs =>
    cases hk : i.kind <;> cases hc : i.isCompleteDefinition <;>
      cases hn : i.isCanonicalDecl <;> cases ds <;> cases cs <;>
      simp [examine, specVisit, stopCursor, Yieldable, descendFlag, isClassLikeKind,
        Decl.kind, Decl.info, Decl.decls, Decl.isTagDecl, Decl.isRecordDecl, hk, hc, hn,
        specListing_nil]

theorem loop_succ_first (ctx : ASTContext) (fuel : Nat) (c : Cursor) (d : Decl)
    (rest : List Decl) (hi : c.fIter = d :: rest) (hf : c.fFirstTime = true) :
    loop ctx (fuel + 1) c = afterExamine ctx fuel (clearFirst c) d := by
  obtain ⟨ft, ds, it, st, dec, ty⟩ := c
  simp only at hi hf
  subst hi hf
  simp [loop, afterExamine, clearFirst]

theorem loop_succ_later (ctx : ASTContext) (fuel : Nat) (c : Cursor) (d : Decl)
    (rest : List Decl) (hi : c.fIter = d :: rest) (hf : c.fFirstTime = false) :
    loop ctx (fuel + 1) c =
      match (fixPastEnd (advance c d rest)).fIter with
      | [] => some (0, { fixPastEnd (advance c d rest) with fDecl := none, fType := none })
      | d1 :: _ => afterExamine ctx fuel (fixPastEnd (advance c d rest)) d1 := by
  obtain ⟨ft, ds, it, st, dec, ty⟩ := c
  simp only at hi hf
  subst hi hf
  simp only [loop, afterExamine]
  rfl

/-- The cursor after advancing and fixing the position: what it owes and how
much work is left. -/
theorem advance_fix (c : Cursor) (d : Decl) (rest : List Decl)
    (hi : c.fIter = d :: rest) (hf : c.fFirstTime = false) :
    (fixPastEnd (advance c d rest)).fFirstTime = false ∧
    (fixPastEnd (advance c d rest)).fDescend = false ∧
    ((fixPastEnd (advance c d rest)).fIter = [] →
      (fixPastEnd (advance c d rest)).fIterStack = []) ∧
    work (fixPastEnd (advance c d rest)) < work c ∧
    specListing (fixPastEnd (advance c d rest)).fIter ++
      stackPending (fixPastEnd (advance c d rest)).fIterStack = pending c := by
  obtain ⟨ft, ds, it, st, dec, ty⟩ := c
  simp only at hi hf
  subst hi hf
  cases ds with
  | false =>
    obtain ⟨h1, h2, h3⟩ := popPastEnd_spec st rest
    refine ⟨rfl, rfl, ?_, ?_, ?_⟩
    · simpa [fixPastEnd, advance] using h1
    · simp only [work, fixPastEnd, advance, forestSize_cons] at *
      simp at *
      omega
    · simpa [fixPastEnd, advance, pending] using h3
  | true =>
    obtain ⟨h1, h2, h3⟩ := popPastEnd_spec ((d :: rest) :: st) d.decls
    refine ⟨rfl, rfl, ?_, ?_, ?_⟩
    · simpa [fixPastEnd, advance] using h1
    · simp only [work, fixPastEnd, advance, forestSize_cons, stackWork] at *
      simp at *
      omega
    · simpa [fixPastEnd, advance, pending, stackPending] using h3

theorem work_pos (c : Cursor) (d : Decl) (rest : List Decl) (hi : c.fIter = d :: rest) :
    0 < work c := by
  simp only [work, hi, forestSize_cons]
  omega

/-- From the point where a declaration is examined: the loop delivers the head
of the listing that starts at this declaration. -/
theorem afterExamine_steps (ctx : ASTContext) (fuel : Nat)
    (ih : ∀ c : Cursor, ∀ d : Decl, ∀ rest : List Decl, c.fIter = d :: rest →
      c.fFirstTime = false → work c ≤ fuel →
      ∃ res, loop ctx fuel c = some res ∧ StepsTo (pending c) res)
    (c : Cursor) (d : Decl) (rest : List Decl) (hi : c.fIter = d :: rest)
    (hf : c.fFirstTime = false) (hd : c.fDescend = false) (hw : work c ≤ fuel) :
    ∃ res, afterExamine ctx fuel c d = some res ∧
      StepsTo (specListing (d :: rest) ++ stackPending c.fIterStack) res := by
  rcases examine_cases ctx c d with ⟨he, hv, _⟩ | ⟨he, hv, _⟩ | ⟨he, hv, hy⟩
  · obtain ⟨res, hl, hs⟩ := ih c d rest hi hf hw
    refine ⟨res, ?_, ?_⟩
    · simp [afterExamine, he, hl]
    · simpa [pending, hi, hd, specListing_cons, hv] using hs
  · obtain ⟨res, hl, hs⟩ := ih { c with fDescend := true } d rest hi hf
      (by simpa [work] using hw)
    refine ⟨res, ?_, ?_⟩
    · simp [afterExamine, he, hl]
    · simpa [pending, hi, specListing_cons, hv] using hs
  · refine ⟨(1, stopCursor ctx c d), ?_, ?_⟩
    · simp [afterExamine, he]
    · rw [specListing_cons, hv, List.cons_append]
      refine ⟨rfl, rfl, hf, ⟨rest, hi⟩, ?_, hy, ?_⟩
      · simp [stopCursor, hd]
      · simp [pending, stopCursor, hi, hd]

/-- The loop of `InternalNext` from a cursor that has been stepped before:
with fuel `work c` or more it returns, and it delivers the head of the owed
listing. -/
theorem loop_steps (ctx : ASTContext) : ∀ fuel : Nat, ∀ c : Cursor, ∀ d : Decl,
    ∀ rest : List Decl, c.fIter = d :: rest → c.fFirstTime = false → work c ≤ fuel →
    ∃ res, loop ctx fuel c = some res ∧ StepsTo (pending c) res := by
  intro fuel
  induction fuel with
  | zero =>
    intro c d rest hi _ hw
    have := work_pos c d rest hi
    omega
  | succ fuel ih =>
    intro c d rest hi hf hw
    rw [loop_succ_later ctx fuel c d rest hi hf]
    obtain ⟨h1, h2, h3, h4, h5⟩ := advance_fix c d rest hi hf
    generalize fixPastEnd (advance c d rest) = c1 at h1 h2 h3 h4 h5
    cases hi1 : c1.fIter with
    | nil =>
      refine ⟨_, rfl, ?_⟩
      rw [← h5, hi1, h3 hi1]
      simp [specListing_nil, stackPending, StepsTo, hi1, h3 hi1, h1]
    | cons d1 rest1 =>
      obtain ⟨res, hl, hs⟩ := afterExamine_steps ctx fuel ih c1 d1 rest1 hi1 h1 h2 (by omega)
      refine ⟨res, hl, ?_⟩
      rw [← h5, hi1]
      exact hs

theorem InternalNext_null (ctx : ASTContext) (c : Cursor) (hi : c.fIter = []) :
    InternalNext ctx c = some { ret := 0, cursor := c, errors := entryErrors c } := by
  obtain ⟨ft, ds, it, st, dec, ty⟩ := c
  simp only at hi
  subst hi
  rfl

theorem InternalNext_live (ctx : ASTContext) (c : Cursor) (d : Decl) (rest : List Decl)
    (hi : c.fIter = d :: rest) (res : Int × Cursor) (hl : loop ctx (work c) c = some res) :
    InternalNext ctx c = some { ret := res.1, cursor := res.2, errors := [] } := by
  obtain ⟨ft, ds, it, st, dec, ty⟩ := c
  simp only at hi
  subst hi
  simp only [InternalNext, hl]

/-- The client loop from a cursor that has been stepped before delivers exactly
the owed listing, and ends on a cursor with a null iterator. -/
theorem nextUntilFalse_stepped (ctx : ASTContext) : ∀ l : List Decl, ∀ c : Cursor,
    c.fFirstTime = false → pending c = l → ∀ n : Nat, l.length < n →
    ∃ cEnd, nextUntilFalse ctx n c = some (l.map some, cEnd) ∧ cEnd.fIter = [] ∧
      cEnd.fFirstTime = false ∧ (c.fIter ≠ [] → cEnd.fDecl = none) := by
  intro l
  induction l with
  | nil =>
    intro c hf hp n hn
    obtain ⟨m, rfl⟩ : ∃ m, n = m + 1 := ⟨n - 1, by simp at hn; omega⟩
    cases hi : c.fIter with
    | nil =>
      refine ⟨c, ?_, hi, hf, fun h => absurd rfl h⟩
      simp [nextUntilFalse, Next, InternalNext_null ctx c hi]
    | cons d rest =>
      obtain ⟨res, hl, hs⟩ := loop_steps ctx (work c) c d rest hi hf (le_refl _)
      rw [hp] at hs
      obtain ⟨h0, h1, _, h3, _, h5⟩ := hs
      refine ⟨res.2, ?_, h1, h5, fun _ => h3⟩
      simp [nextUntilFalse, Next, InternalNext_live ctx c d rest hi res hl, h0]
  | cons x xs ih =>
    intro c hf hp n hn
    obtain ⟨m, rfl⟩ : ∃ m, n = m + 1 := ⟨n - 1, by simp at hn; omega⟩
    cases hi : c.fIter with
    | nil => simp [pending, hi] at hp
    | cons d rest =>
      obtain ⟨res, hl, hs⟩ := loop_steps ctx (work c) c d rest hi hf (le_refl _)
      rw [hp] at hs
      obtain ⟨h0, h1, h2, ⟨rest1, h3⟩, _, _, h6⟩ := hs
      obtain ⟨cEnd, he, e1, e2, e3⟩ := ih res.2 h2 h6 m (by simp at hn; omega)
      refine ⟨cEnd, ?_, e1, e2, fun _ => e3 (by simp [h3])⟩
      simp [nextUntilFalse, Next, InternalNext_live ctx c d rest hi res hl, h0, he, h1]

theorem defaultCtor_eq (ctx : ASTContext) (TU : Decl) (r : NextResult)
    (h : InternalNext ctx (ctorStart TU) = some r) :
    defaultCtor ctx TU = some (ctorFinish TU r.cursor) := by
  simp only [ctorStart] at h
  simp only [defaultCtor, h, ctorFinish]

/-- The first call of `Next()` on a constructed cursor whose iterator is on a
declaration the traversal stops on: it stops on that declaration. -/
theorem Next_ctorFinish (ctx : ASTContext) (TU : Decl) (c : Cursor) (x : Decl)
    (rest : List Decl) (hi : c.fIter = x :: rest) (hy : Yieldable x) :
    Next ctx (ctorFinish TU c) = some ⟨1, stopCursor ctx (clearFirst (ctorFinish TU c)) x, []⟩ := by
  have hc : (ctorFinish TU c).fIter = x :: rest := hi
  have hex : examine ctx (clearFirst (ctorFinish TU c)) x =
      Outcome.done 1 (stopCursor ctx (clearFirst (ctorFinish TU c)) x) := by
    rcases examine_cases ctx (clearFirst (ctorFinish TU c)) x with
      ⟨_, _, hny⟩ | ⟨_, _, hny⟩ | ⟨he, _, _⟩
    · exact absurd hy hny
    · exact absurd hy hny
    · exact he
  have hw : work (ctorFinish TU c) = (forestSize c.fIter + stackWork c.fIterStack) + 1 := by
    simp [work, ctorFinish]
  have hl := loop_succ_first ctx (forestSize c.fIter + stackWork c.fIterStack)
    (ctorFinish TU c) x rest hc rfl
  rw [← hw] at hl
  simp only [afterExamine, hex] at hl
  exact InternalNext_live ctx _ x rest hc _ hl

/-- The default constructor returns, and the client loop on the constructed
cursor delivers the specification's listing of the translation unit. -/
theorem defaultCtor_listing (ctx : ASTContext) (TU : Decl) :
    ∃ c0, defaultCtor ctx TU = some c0 ∧ c0.fDecl = some TU ∧
      ∀ n : Nat, (specListing TU.decls).length < n →
      ∃ cEnd, nextUntilFalse ctx n c0 = some ((specListing TU.decls).map some, cEnd) ∧
        cEnd.fIter = [] ∧
        (specListing TU.decls = [] → cEnd = c0) ∧
        (specListing TU.decls ≠ [] → cEnd.fDecl = none ∧ cEnd.fFirstTime = false) := by
  cases hi : TU.decls with
  | nil =>
    have h0 : (ctorStart TU).fIter = [] := hi
    refine ⟨ctorFinish TU (ctorStart TU),
      defaultCtor_eq ctx TU _ (InternalNext_null ctx (ctorStart TU) h0), rfl, ?_⟩
    intro n hn
    obtain ⟨m, rfl⟩ : ∃ m, n = m + 1 := ⟨n - 1, by omega⟩
    have h1 : (ctorFinish TU (ctorStart TU)).fIter = [] := h0
    refine ⟨ctorFinish TU (ctorStart TU), ?_, h1, fun _ => rfl,
      fun h => absurd specListing_nil h⟩
    simp [nextUntilFalse, Next, InternalNext_null ctx _ h1, specListing_nil]
  | cons d rest =>
    have h0 : (ctorStart TU).fIter = d :: rest := hi
    have hw : work (ctorStart TU) = (forestSize (d :: rest) + 0) + 1 := by
      simp [work, ctorStart, hi, stackWork]
    have hl := loop_succ_first ctx (forestSize (d :: rest) + 0) (ctorStart TU) d rest h0 rfl
    rw [← hw] at hl
    obtain ⟨res, ha, hs⟩ := afterExamine_steps ctx (forestSize (d :: rest) + 0)
      (loop_steps ctx _) (clearFirst (ctorStart TU)) d rest h0 rfl rfl
      (by simp [work, ctorStart, clearFirst, hi, stackWork])
    rw [ha] at hl
    refine ⟨ctorFinish TU res.2,
      defaultCtor_eq ctx TU _ (InternalNext_live ctx (ctorStart TU) d rest h0 res hl), rfl, ?_⟩
    simp only [ctorStart, clearFirst, stackPending, List.append_nil] at hs
    intro n hlen
    obtain ⟨m, rfl⟩ : ∃ m, n = m + 1 := ⟨n - 1, by omega⟩
    cases hsl : specListing (d :: rest) with
    | nil =>
      rw [hsl] at hs
      obtain ⟨_, h1, _, _, _, _⟩ := hs
      have h1b : (ctorFinish TU res.2).fIter = [] := h1
      refine ⟨ctorFinish TU res.2, ?_, h1b, fun _ => rfl, fun h => absurd rfl h⟩
      simp [nextUntilFalse, Next, InternalNext_null ctx _ h1b]
    | cons x xs =>
      rw [hsl] at hs hlen
      obtain ⟨_, _, _, ⟨rest1, h3⟩, h4, h5, h6⟩ := hs
      have hn2 := Next_ctorFinish ctx TU res.2 x rest1 h3 h5
      obtain ⟨cEnd, he, e1, e2, e3⟩ := nextUntilFalse_stepped ctx xs
        (stopCursor ctx (clearFirst (ctorFinish TU res.2)) x) rfl
        (by rw [← h6]; simp [pending, stopCursor, ctorFinish, clearFirst, h3, h4])
        m (by simp at hlen; omega)
      refine ⟨cEnd, ?_, e1, fun h => by simp at h,
        fun _ => ⟨e3 (by simp [stopCursor, ctorFinish, clearFirst, h3]), e2⟩⟩
      simp only [nextUntilFalse, hn2, he]
      simp [stopCursor]

theorem Lands.mono {w v : Nat} {res : Int × Cursor} (h : Lands w res) (hwv : w ≤ v) :
    Lands v res := by
  rcases h with h | ⟨h1, h2, h3, h4⟩
  · exact Or.inl h
  · exact Or.inr ⟨h1, h2, h3, le_trans h4 hwv⟩

theorem afterExamine_total (ctx : ASTContext) (fuel : Nat)
    (ih : ∀ c : Cursor, ∀ d : Decl, ∀ rest : List Decl, c.fIter = d :: rest →
      c.fFirstTime = false → work c ≤ fuel →
      ∃ res, loop ctx fuel c = some res ∧ Lands (work c - 1) res)
    (c : Cursor) (d : Decl) (rest : List Decl) (hi : c.fIter = d :: rest)
    (hf : c.fFirstTime = false) (hw : work c ≤ fuel) :
    ∃ res, afterExamine ctx fuel c d = some res ∧ Lands (work c) res := by
  rcases examine_cases ctx c d with ⟨he, _, _⟩ | ⟨he, _, _⟩ | ⟨he, _, hy⟩
  · obtain ⟨res, hl, hs⟩ := ih c d rest hi hf hw
    exact ⟨res, by simp [afterExamine, he, hl], hs.mono (Nat.sub_le _ _)⟩
  · obtain ⟨res, hl, hs⟩ := ih { c with fDescend := true } d rest hi hf
      (by simpa [work] using hw)
    refine ⟨res, by simp [afterExamine, he, hl], ?_⟩
    have hs2 : Lands (work c - 1) res := by simpa [work] using hs
    exact hs2.mono (Nat.sub_le _ _)
  · refine ⟨(1, stopCursor ctx c d), by simp [afterExamine, he], Or.inr ⟨rfl, ?_, hf, ?_⟩⟩
    · exact ⟨d, rest, rfl, hy, hi⟩
    · simp [work, stopCursor]

theorem loop_total_later (ctx : ASTContext) : ∀ fuel : Nat, ∀ c : Cursor, ∀ d : Decl,
    ∀ rest : List Decl, c.fIter = d :: rest → c.fFirstTime = false → work c ≤ fuel →
    ∃ res, loop ctx fuel c = some res ∧ Lands (work c - 1) res := by
  intro fuel
  induction fuel with
  | zero =>
    intro c d rest hi _ hw
    have := work_pos c d rest hi
    omega
  | succ fuel ih =>
    intro c d rest hi hf hw
    rw [loop_succ_later ctx fuel c d rest hi hf]
    obtain ⟨h1, h2, h3, h4, _⟩ := advance_fix c d rest hi hf
    generalize fixPastEnd (advance c d rest) = c1 at h1 h2 h3 h4
    cases hi1 : c1.fIter with
    | nil => exact ⟨_, rfl, Or.inl ⟨rfl, hi1, h3 hi1, rfl, rfl, h1⟩⟩
    | cons d1 rest1 =>
      obtain ⟨res, hl, hs⟩ := afterExamine_total ctx fuel ih c1 d1 rest1 hi1 h1 (by omega)
      exact ⟨res, hl, hs.mono (by omega)⟩

/-- The loop of `InternalNext` returns from every cursor whose iterator is on a
declaration, with fuel `work c`. -/
theorem loop_total (ctx : ASTContext) (c : Cursor) (d : Decl) (rest : List Decl)
    (hi : c.fIter = d :: rest) :
    ∃ res, loop ctx (work c) c = some res ∧ Lands (work c - 1) res := by
  cases hf : c.fFirstTime with
  | false => exact loop_total_later ctx (work c) c d rest hi hf (le_refl _)
  | true =>
    have hw : work c = work (clearFirst c) + 1 := by simp [work, clearFirst, hf]
    rw [hw, loop_succ_first ctx (work (clearFirst c)) c d rest hi hf]
    obtain ⟨res, hl, hs⟩ := afterExamine_total ctx (work (clearFirst c))
      (loop_total_later ctx _) (clearFirst c) d rest hi rfl (le_refl _)
    exact ⟨res, hl, by simpa using hs⟩

/-- Every call of `InternalNext` returns.  It returns 0 leaving the cursor as
it is when the iterator is null, and 0 with a null handle at final termination;
otherwise it returns 1 on a declaration the specification allows. -/
theorem InternalNext_total (ctx : ASTContext) (c : Cursor) :
    ∃ r, InternalNext ctx c = some r ∧
      ((r.ret = 0 ∧ r.cursor.fIter = [] ∧ (c.fIter = [] → r.cursor = c) ∧
          (c.fIter ≠ [] → r.cursor.fDecl = none ∧ r.cursor.fType = none ∧
            r.cursor.fFirstTime = false)) ∨
        (r.ret = 1 ∧ (∃ x rest, r.cursor.fDecl = some x ∧ Yieldable x ∧
            r.cursor.fIter = x :: rest) ∧ work r.cursor < work c)) := by
  cases hi : c.fIter with
  | nil =>
    exact ⟨_, InternalNext_null ctx c hi, Or.inl ⟨rfl, hi, fun _ => rfl, fun h => absurd rfl h⟩⟩
  | cons d rest =>
    obtain ⟨res, hl, hs⟩ := loop_total ctx c d rest hi
    refine ⟨_, InternalNext_live ctx c d rest hi res hl, ?_⟩
    rcases hs with ⟨h0, h1, _, h3, h4, h5⟩ | ⟨h0, h1, _, h3⟩
    · exact Or.inl ⟨h0, h1, fun h => by simp at h, fun _ => ⟨h3, h4, h5⟩⟩
    · have := work_pos c d rest hi
      have hlt : work res.2 < work c := by omega
      exact Or.inr ⟨h0, h1, hlt⟩

/-- A call of `InternalNext` on a cursor whose iterator is null changes nothing. -/
theorem InternalNext_again (ctx : ASTContext) (c : Cursor) (hi : c.fIter = []) :
    ∃ e, InternalNext ctx c = some { ret := 0, cursor := c, errors := e } :=
  ⟨_, InternalNext_null ctx c hi⟩

/-- The client loop returns from every cursor, and every handle it collects is
a declaration the specification allows. -/
theorem nextUntilFalse_total (ctx : ASTContext) : ∀ n : Nat, ∀ c : Cursor, work c < n →
    ∃ hs cEnd, nextUntilFalse ctx n c = some (hs, cEnd) ∧ cEnd.fIter = [] ∧
      ∀ h ∈ hs, ∃ d, h = some d ∧ Yieldable d := by
  intro n
  induction n with
  | zero => intro c hw; omega
  | succ n ih =>
    intro c hw
    obtain ⟨r, hr, h⟩ := InternalNext_total ctx c
    rcases h with ⟨h0, h1, _, _⟩ | ⟨h0, ⟨x, rest, hx, hy, _⟩, hlt⟩
    · exact ⟨[], r.cursor, by simp [nextUntilFalse, Next, hr, h0], h1, by simp⟩
    · obtain ⟨hs, cEnd, he, h1, h2⟩ := ih r.cursor (by omega)
      refine ⟨r.cursor.fDecl :: hs, cEnd, by simp [nextUntilFalse, Next, hr, h0, he], h1, ?_⟩
      intro h hmem
      rcases List.mem_cons.mp hmem with rfl | hmem
      · exact ⟨x, hx, hy⟩
      · exact h2 h hmem

mutual
theorem specVisit_sublist : ∀ d : Decl, (specVisit d).Sublist (declNodes d)
  | Decl.mk i ds => by
    have h := specListing_sublist ds
    simp only [specVisit, declNodes]
    split
    · exact List.nil_sublist _
    · split
      · exact List.nil_sublist _
      · split
        · exact List.sublist_cons_of_sublist _ h
        · split
          · exact (List.nil_sublist _).cons₂ _
          · exact h.cons₂ _
theorem specListing_sublist : ∀ l : List Decl, (specListing l).Sublist (forestNodes l)
  | [] => by simp [specListing, forestNodes]
  | d :: ds => by
    simp only [specListing, forestNodes]
    exact (specVisit_sublist d).append (specListing_sublist ds)
end

/-! ## The model on the example translation unit -/

theorem exampleTU_specListing :
    (specListing exampleTU.decls).map Decl.addr = [2, 3, 5, 8, 11, 15] := by
  decide

theorem exampleTU_next_sequence :
    ((defaultCtor exampleCtx exampleTU).bind (nextUntilFalse exampleCtx 7)).map
      (fun p => (p.1.map (Option.map Decl.addr), p.2.fDecl.map Decl.addr)) =
      some ([some 2, some 3, some 5, some 8, some 11, some 15], none) := by
  decide

/-! ## The traversal: claims C1 to C5 -/

theorem Yieldable.complete {d : Decl} (h : Yieldable d) :
    ¬ (d.isTagDecl = true ∧ d.info.isCompleteDefinition = false) := by
  rintro ⟨ht, hc⟩
  rcases h with ⟨hk, _⟩ | ⟨_, h2⟩ | ⟨_, h2⟩
  · simp [Decl.isTagDecl, hk] at ht
  · simp [hc] at h2
  · simp [hc] at h2

/-- C1: on the cursor the default constructor builds for a translation unit,
the handles at which `Next()` returns true, called until it first returns
false, are exactly the specification's filtered depth-first pre-order listing
of the translation unit's declarations; the constructor and every call return. -/
theorem C1_next_sequence_is_filtered_preorder (ctx : ASTContext) (TU : Decl) :
    ∃ c0, defaultCtor ctx TU = some c0 ∧
      ∀ n : Nat, (specListing TU.decls).length < n →
        ∃ cEnd, nextUntilFalse ctx n c0 = some ((specListing TU.decls).map some, cEnd) := by
  obtain ⟨c0, h0, _, h⟩ := defaultCtor_listing ctx TU
  refine ⟨c0, h0, fun n hn => ?_⟩
  obtain ⟨cEnd, he, _⟩ := h n hn
  exact ⟨cEnd, he⟩

/-- C2: from every cursor state a call of `Next()` returns, and when it returns
true the handle is a declaration the specification allows (a canonical
namespace, a complete enum, a complete record or specialization), never an
incomplete tag declaration; the same holds for every handle collected by calling
`Next()` until it returns false, which takes at most `work c + 1` calls. -/
theorem C2_yielded_entities_are_complete_definitions (ctx : ASTContext) (c : Cursor) :
    (∃ r, Next ctx c = some r ∧
      (r.ret ≠ 0 → ∃ d, r.cursor.fDecl = some d ∧ Yieldable d ∧
        ¬ (d.isTagDecl = true ∧ d.info.isCompleteDefinition = false))) ∧
    (∃ hs cEnd, nextUntilFalse ctx (work c + 1) c = some (hs, cEnd) ∧
      ∀ h ∈ hs, ∃ d, h = some d ∧ Yieldable d ∧
        ¬ (d.isTagDecl = true ∧ d.info.isCompleteDefinition = false)) := by
  constructor
  · obtain ⟨r, hr, h⟩ := InternalNext_total ctx c
    refine ⟨r, hr, fun hne => ?_⟩
    rcases h with ⟨h0, _⟩ | ⟨_, ⟨x, _, hx, hy, _⟩, _⟩
    · exact absurd h0 hne
    · exact ⟨x, hx, hy, hy.complete⟩
  · obtain ⟨hs, cEnd, he, _, h⟩ := nextUntilFalse_total ctx (work c + 1) c (Nat.lt_succ_self _)
    refine ⟨hs, cEnd, he, fun x hx => ?_⟩
    obtain ⟨d, hd, hy⟩ := h x hx
    exact ⟨d, hd, hy, hy.complete⟩

/-- C3: when the nodes of the translation unit have pairwise distinct
addresses, no declaration occurs twice among the handles `Next()` yields on a
default-constructed cursor; and the pop step resumes a suspended iterator
strictly after its declaration: with the iterator at the end and `d :: rest` on
top of the stack, fixing the position continues from `rest`, not from `d`. -/
theorem C3_no_declaration_yielded_twice (ctx : ASTContext) (TU : Decl)
    (hdistinct : ((forestNodes TU.decls).map Decl.addr).Nodup) :
    (∃ (c0 : Cursor) (n : Nat) (l : List Decl) (cEnd : Cursor), defaultCtor ctx TU = some c0 ∧
      nextUntilFalse ctx n c0 = some (l.map some, cEnd) ∧ (l.map Decl.addr).Nodup) ∧
    (∀ c : Cursor, ∀ d : Decl, ∀ rest : List Decl, ∀ st : List (List Decl),
      c.fIter = [] → c.fIterStack = (d :: rest) :: st →
      fixPastEnd c = fixPastEnd { c with fIter := rest, fIterStack := st }) := by
  constructor
  · obtain ⟨c0, h0, _, h⟩ := defaultCtor_listing ctx TU
    obtain ⟨cEnd, he, _⟩ := h ((specListing TU.decls).length + 1) (Nat.lt_succ_self _)
    exact ⟨c0, _, specListing TU.decls, cEnd, h0, he,
      hdistinct.sublist ((specListing_sublist TU.decls).map Decl.addr)⟩
  · intro c d rest st hi hs
    simp [fixPastEnd, hi, hs, popPastEnd_nil_cons]

/-- Witness of C3 on the example translation unit. -/
theorem C3_no_declaration_yielded_twice_witness :
    ((forestNodes exampleTU.decls).map Decl.addr).Nodup ∧
    ((∃ (c0 : Cursor) (n : Nat) (l : List Decl) (cEnd : Cursor),
      defaultCtor exampleCtx exampleTU = some c0 ∧
      nextUntilFalse exampleCtx n c0 = some (l.map some, cEnd) ∧ (l.map Decl.addr).Nodup) ∧
    (∀ c : Cursor, ∀ d : Decl, ∀ rest : List Decl, ∀ st : List (List Decl),
      c.fIter = [] → c.fIterStack = (d :: rest) :: st →
      fixPastEnd c = fixPastEnd { c with fIter := rest, fIterStack := st })) :=
  ⟨by decide, C3_no_declaration_yielded_twice exampleCtx exampleTU (by decide)⟩

/-- The first `Next()` on the cursor the default constructor builds for
`int x; void f();`: the iterator is already null, the call returns false through
the entry guard of lines 604-619, reports the usage error, and the handle stays
the translation unit. -/
theorem plainTU_first_Next :
    ((defaultCtor exampleCtx plainTU).bind (Next exampleCtx)).map
      (fun r => (r.ret, r.errors, r.cursor.fDecl.map Decl.addr)) =
      some (0, [notPreparedError plainTU], some plainTU.addr) := by
  decide

/-- After the traversal of the example translation unit is exhausted, three
more calls of `Next()` return false, report nothing and leave the handle null. -/
theorem exampleTU_calls_after_exhaustion :
    (((defaultCtor exampleCtx exampleTU).bind (nextUntilFalse exampleCtx 7)).bind
      (fun p => callsAfter exampleCtx 3 p.2)).map
      (fun q => (q.1, q.2.fDecl.map Decl.addr)) =
      some ([(0, []), (0, []), (0, [])], none) := by
  decide

/-- C5, as the claim states it, fails: a cursor built by looking up a name that
is not found has a null handle, and `Next()` on it returns false without
reporting anything. -/
theorem C5_counterexample_name_not_found :
    (Next exampleCtx (ctorByName lookupNothing id "NoSuchClass")).map
      (fun r => (r.ret, r.errors)) = some (0, []) := by
  decide

/-- C5 amended: on a cursor built by name lookup, or re-initialised with
`Init(name)` or `Init(decl)`, `Next()` returns false and leaves the cursor as it
is; it reports the usage error exactly when the handle is not null, and reports
nothing when the handle is null. -/
theorem C5_unprepared_cursor_reports_when_bound (ctx : ASTContext) (lh : LookupHelper)
    (InsertStd : String → String) (name : String) (c : Cursor) (decl : Option Decl) :
    Next ctx (ctorByName lh InsertStd name) =
      some { ret := 0, cursor := ctorByName lh InsertStd name,
             errors := match (ctorByName lh InsertStd name).fDecl with
               | some d => [notPreparedError d]
               | none => [] } ∧
    Next ctx (InitName lh InsertStd c name) =
      some { ret := 0, cursor := InitName lh InsertStd c name,
             errors := match (InitName lh InsertStd c name).fDecl with
               | some d => [notPreparedError d]
               | none => [] } ∧
    Next ctx (InitDecl c decl) =
      some { ret := 0, cursor := InitDecl c decl,
             errors := match decl with
               | some d => [notPreparedError d]
               | none => [] } := by
  refine ⟨?_, ?_, ?_⟩
  · simp only [Next, ctorByName, InternalNext, entryErrors]
    cases (lookupScope lh InsertStd name).1 <;> rfl
  · simp only [Next, InitName, InternalNext, entryErrors]
    cases (lookupScope lh InsertStd name).1 <;> rfl
  · simp only [Next, InitDecl, InternalNext, entryErrors]
    cases decl <;> rfl

/-! ## ClassProperty: claims C6 to C8 -/

theorem testBit_ite_or (b : Bool) (x k i : Nat) :
    (if b = true then x ||| 2 ^ k else x).testBit i =
      (x.testBit i || (b && decide (k = i))) := by
  cases b <;> simp [Nat.testBit_two_pow]

theorem testBit_ite_or_else (a b : Bool) (x k1 k2 i : Nat) :
    (if a = true then x ||| 2 ^ k1 else if b = true then x ||| 2 ^ k2 else x).testBit i =
      (x.testBit i || (a && decide (k1 = i)) || (!a && b && decide (k2 = i))) := by
  cases a <;> cases b <;> simp [Nat.testBit_two_pow]

/-- Bit `i` of the mask of a class or struct: the disjunction of the flags whose
position is `i` and whose condition holds. -/
theorem classOrStructProperty_testBit (K : EClassProperty) (d : Decl) (i : Nat) :
    (classOrStructProperty K d).testBit i =
      (decide (K.bit ClassFlag.kClassIsValid = i) ||
       (d.info.isAbstract && decide (K.bit ClassFlag.kClassIsAbstract = i)) ||
       (d.info.hasUserDeclaredConstructor &&
          decide (K.bit ClassFlag.kClassHasExplicitCtor = i)) ||
       ((!d.info.hasUserDeclaredConstructor && !d.info.hasTrivialDefaultConstructor) &&
          decide (K.bit ClassFlag.kClassHasImplicitCtor = i)) ||
       ((d.info.hasUserProvidedDefaultConstructor || !d.info.hasTrivialDefaultConstructor) &&
          decide (K.bit ClassFlag.kClassHasDefaultCtor = i)) ||
       (d.info.hasUserDeclaredDestructor &&
          decide (K.bit ClassFlag.kClassHasExplicitDtor = i)) ||
       (!d.info.hasUserDeclaredDestructor && !d.info.hasTrivialDestructor &&
          decide (K.bit ClassFlag.kClassHasImplicitDtor = i)) ||
       (d.info.hasUserDeclaredCopyAssignment &&
          decide (K.bit ClassFlag.kClassHasAssignOpr = i)) ||
       (d.info.isPolymorphic && decide (K.bit ClassFlag.kClassHasVirtual = i))) := by
  simp only [classOrStructProperty, EClassProperty.value,
    testBit_ite_or, testBit_ite_or_else, Nat.zero_or, Nat.testBit_two_pow]

/-- Whether a class or struct has a flag, when the flags are independent. -/
theorem hasFlag_classOrStruct (K : EClassProperty) (hK : K.Independent) (d : Decl)
    (f : ClassFlag) :
    hasFlag K (classOrStructProperty K d) f =
      (decide (ClassFlag.kClassIsValid = f) ||
       (d.info.isAbstract && decide (ClassFlag.kClassIsAbstract = f)) ||
       (d.info.hasUserDeclaredConstructor && decide (ClassFlag.kClassHasExplicitCtor = f)) ||
       ((!d.info.hasUserDeclaredConstructor && !d.info.hasTrivialDefaultConstructor) &&
          decide (ClassFlag.kClassHasImplicitCtor = f)) ||
       ((d.info.hasUserProvidedDefaultConstructor || !d.info.hasTrivialDefaultConstructor) &&
          decide (ClassFlag.kClassHasDefaultCtor = f)) ||
       (d.info.hasUserDeclaredDestructor && decide (ClassFlag.kClassHasExplicitDtor = f)) ||
       (!d.info.hasUserDeclaredDestructor && !d.info.hasTrivialDestructor &&
          decide (ClassFlag.kClassHasImplicitDtor = f)) ||
       (d.info.hasUserDeclaredCopyAssignment && decide (ClassFlag.kClassHasAssignOpr = f)) ||
       (d.info.isPolymorphic && decide (ClassFlag.kClassHasVirtual = f))) := by
  have e : ∀ g : ClassFlag, decide (K.bit g = K.bit f) = decide (g = f) := fun g => by
    simp [hK.eq_iff]
  simp only [hasFlag, classOrStructProperty_testBit, e]

/-- On a valid cursor positioned on a class or struct, `ClassProperty()` is the
mask of lines 140-174. -/
theorem ClassProperty_classOrStruct (K : EClassProperty) (c : Cursor) (d : Decl)
    (hd : c.fDecl = some d) (hv : IsValid c = true) (hr : d.isRecordDecl = true)
    (hu : d.isUnion = false) : ClassProperty K c = classOrStructProperty K d := by
  simp [ClassProperty, hd, hv, hr, hu]

/-- On a cursor positioned on a union, an enum or a namespace, `ClassProperty()` is 0. -/
theorem ClassProperty_zero (K : EClassProperty) (c : Cursor) (d : Decl)
    (hd : c.fDecl = some d)
    (hk : d.kind = DeclKind.Namespace ∨ d.kind = DeclKind.Enum ∨
      (d.isRecordDecl = true ∧ d.isUnion = true)) : ClassProperty K c = 0 := by
  rcases hk with hk | hk | ⟨hr, hu⟩
  · simp [ClassProperty, hd, Decl.isRecordDecl, hk]
  · simp [ClassProperty, hd, Decl.isRecordDecl, hk]
  · simp [ClassProperty, hd, hr, hu]

/-- C6, as the claim states it, fails: a valid cursor positioned on a union
that has a user-declared constructor gets the mask 0, in which the
explicit-constructor bit is not set. -/
theorem C6_counterexample_union_with_constructor :
    IsValid (cursorOn unionWithCtor) = true ∧
    unionWithCtor.isRecordDecl = true ∧
    unionWithCtor.info.hasUserDeclaredConstructor = true ∧
    ClassProperty rootBits (cursorOn unionWithCtor) = 0 ∧
    hasFlag rootBits (ClassProperty rootBits (cursorOn unionWithCtor))
      ClassFlag.kClassHasExplicitCtor = false := by
  decide

/-- C6 amended: with independent flags, on a valid cursor positioned on a
record that has a user-declared constructor, the mask has the
implicit-constructor bit clear; the explicit-constructor bit is set when the
record is a class or struct, and the mask is 0 when the record is a union. -/
theorem C6_user_declared_constructor_bits (K : EClassProperty) (hK : K.Independent)
    (c : Cursor) (d : Decl) (hd : c.fDecl = some d) (hv : IsValid c = true)
    (hr : d.isRecordDecl = true) (hc : d.info.hasUserDeclaredConstructor = true) :
    hasFlag K (ClassProperty K c) ClassFlag.kClassHasImplicitCtor = false ∧
    (d.isUnion = false →
      hasFlag K (ClassProperty K c) ClassFlag.kClassHasExplicitCtor = true) ∧
    (d.isUnion = true → ClassProperty K c = 0) := by
  refine ⟨?_, ?_, ?_⟩
  · cases hu : d.isUnion with
    | true => simp [ClassProperty_zero K c d hd (Or.inr (Or.inr ⟨hr, hu⟩)), hasFlag]
    | false =>
      rw [ClassProperty_classOrStruct K c d hd hv hr hu, hasFlag_classOrStruct K hK]
      simp [hc]
  · intro hu
    rw [ClassProperty_classOrStruct K c d hd hv hr hu, hasFlag_classOrStruct K hK]
    simp [hc]
  · intro hu
    exact ClassProperty_zero K c d hd (Or.inr (Or.inr ⟨hr, hu⟩))

/-- Witness of C6 amended on `class A { public: A(int); virtual ~A(); };`. -/
theorem C6_user_declared_constructor_bits_witness :
    rootBits.Independent ∧
    hasFlag rootBits (ClassProperty rootBits (cursorOn classWithCtor))
      ClassFlag.kClassHasImplicitCtor = false ∧
    (classWithCtor.isUnion = false →
      hasFlag rootBits (ClassProperty rootBits (cursorOn classWithCtor))
        ClassFlag.kClassHasExplicitCtor = true) ∧
    (classWithCtor.isUnion = true → ClassProperty rootBits (cursorOn classWithCtor) = 0) :=
  ⟨by decide, C6_user_declared_constructor_bits rootBits (by decide) (cursorOn classWithCtor)
    classWithCtor rfl (by decide) (by decide) (by decide)⟩

/-- C7: on a cursor positioned on a union, an enum or a namespace,
`ClassProperty()` returns exactly 0, so no constructor, destructor or assignment
bit (no bit at all) is set, whatever the attributes of the entity are. -/
theorem C7_union_enum_namespace_mask_is_zero (K : EClassProperty) (c : Cursor) (d : Decl)
    (hd : c.fDecl = some d)
    (hk : d.kind = DeclKind.Namespace ∨ d.kind = DeclKind.Enum ∨
      (d.isRecordDecl = true ∧ d.isUnion = true)) :
    ClassProperty K c = 0 ∧ ∀ f : ClassFlag, hasFlag K (ClassProperty K c) f = false := by
  have h := ClassProperty_zero K c d hd hk
  exact ⟨h, fun f => by simp [h, hasFlag]⟩

/-- Witness of C7 on a union that has a user-declared constructor. -/
theorem C7_union_enum_namespace_mask_is_zero_witness :
    ClassProperty rootBits (cursorOn unionWithCtor) = 0 ∧
    ∀ f : ClassFlag, hasFlag rootBits (ClassProperty rootBits (cursorOn unionWithCtor)) f = false :=
  C7_union_enum_namespace_mask_is_zero rootBits (cursorOn unionWithCtor) unionWithCtor rfl
    (Or.inr (Or.inr ⟨by decide, by decide⟩))

/-- C8: with independent flags, on a valid cursor positioned on a class or
struct every bit of `ClassProperty()` follows its rule. -/
theorem C8_class_or_struct_bits_follow_rules (K : EClassProperty) (hK : K.Independent)
    (c : Cursor) (d : Decl) (hd : c.fDecl = some d) (hv : IsValid c = true)
    (hr : d.isRecordDecl = true) (hu : d.isUnion = false) :
    (hasFlag K (ClassProperty K c) ClassFlag.kClassHasExplicitCtor = true ↔
      d.info.hasUserDeclaredConstructor = true) ∧
    (hasFlag K (ClassProperty K c) ClassFlag.kClassHasImplicitCtor = true ↔
      (d.info.hasUserDeclaredConstructor = false ∧
        d.info.hasTrivialDefaultConstructor = false)) ∧
    (hasFlag K (ClassProperty K c) ClassFlag.kClassHasDefaultCtor = true ↔
      (d.info.hasUserProvidedDefaultConstructor = true ∨
        d.info.hasTrivialDefaultConstructor = false)) ∧
    (hasFlag K (ClassProperty K c) ClassFlag.kClassHasExplicitDtor = true ↔
      d.info.hasUserDeclaredDestructor = true) ∧
    (hasFlag K (ClassProperty K c) ClassFlag.kClassHasImplicitDtor = true ↔
      (d.info.hasUserDeclaredDestructor = false ∧ d.info.hasTrivialDestructor = false)) ∧
    (hasFlag K (ClassProperty K c) ClassFlag.kClassHasAssignOpr = true ↔
      d.info.hasUserDeclaredCopyAssignment = true) ∧
    (hasFlag K (ClassProperty K c) ClassFlag.kClassIsAbstract = true ↔
      d.info.isAbstract = true) ∧
    (hasFlag K (ClassProperty K c) ClassFlag.kClassHasVirtual = true ↔
      d.info.isPolymorphic = true) := by
  rw [ClassProperty_classOrStruct K c d hd hv hr hu]
  simp only [hasFlag_classOrStruct K hK]
  refine ⟨?_, ?_, ?_, ?_, ?_, ?_, ?_, ?_⟩ <;> simp

/-- Witness of C8 on `class A { public: A(int); virtual ~A(); };`. -/
theorem C8_class_or_struct_bits_follow_rules_witness :
    rootBits.Independent ∧ IsValid (cursorOn classWithCtor) = true ∧
    classWithCtor.isRecordDecl = true ∧ classWithCtor.isUnion = false ∧
    ((hasFlag rootBits (ClassProperty rootBits (cursorOn classWithCtor))
        ClassFlag.kClassHasExplicitCtor = true ↔
      classWithCtor.info.hasUserDeclaredConstructor = true) ∧
    (hasFlag rootBits (ClassProperty rootBits (cursorOn classWithCtor))
        ClassFlag.kClassHasImplicitCtor = true ↔
      (classWithCtor.info.hasUserDeclaredConstructor = false ∧
        classWithCtor.info.hasTrivialDefaultConstructor = false)) ∧
    (hasFlag rootBits (ClassProperty rootBits (cursorOn classWithCtor))
        ClassFlag.kClassHasDefaultCtor = true ↔
      (classWithCtor.info.hasUserProvidedDefaultConstructor = true ∨
        classWithCtor.info.hasTrivialDefaultConstructor = false)) ∧
    (hasFlag rootBits (ClassProperty rootBits (cursorOn classWithCtor))
        ClassFlag.kClassHasExplicitDtor = true ↔
      classWithCtor.info.hasUserDeclaredDestructor = true) ∧
    (hasFlag rootBits (ClassProperty rootBits (cursorOn classWithCtor))
        ClassFlag.kClassHasImplicitDtor = true ↔
      (classWithCtor.info.hasUserDeclaredDestructor = false ∧
        classWithCtor.info.hasTrivialDestructor = false)) ∧
    (hasFlag rootBits (ClassProperty rootBits (cursorOn classWithCtor))
        ClassFlag.kClassHasAssignOpr = true ↔
      classWithCtor.info.hasUserDeclaredCopyAssignment = true) ∧
    (hasFlag rootBits (ClassProperty rootBits (cursorOn classWithCtor))
        ClassFlag.kClassIsAbstract = true ↔
      classWithCtor.info.isAbstract = true) ∧
    (hasFlag rootBits (ClassProperty rootBits (cursorOn classWithCtor))
        ClassFlag.kClassHasVirtual = true ↔
      classWithCtor.info.isPolymorphic = true)) :=
  ⟨by decide, by decide, by decide, by decide,
    C8_class_or_struct_bits_follow_rules rootBits (by decide) (cursorOn classWithCtor)
      classWithCtor rfl (by decide) (by decide) (by decide)⟩

/-! ## Method resolution: claims C9 and C10 -/

/-- The loop over the bases finds the first base whose declaration is the
definer, and keeps `offset` when there is none. -/
theorem scanBases_eq_find (definer : Nat) (bases : List BaseStep) (offset : Int) :
    scanBases definer bases offset =
      match bases.find? (fun b => b.baseDecl == definer) with
      | some b => b.Offset
      | none => offset := by
  induction bases with
  | nil => simp [scanBases]
  | cons b bs ih =>
    by_cases h : b.baseDecl = definer
    · simp [scanBases, List.find?_cons, h]
    · have hb : (b.baseDecl == definer) = false := by simp [h]
      simp only [scanBases, List.find?_cons, h, hb, if_false, ih]

/-- C9: for an accessor record, `GetOffset` returns the specification's
adjustment: 0 when the defining record of the member function is the accessor
itself, otherwise the offset of the first enumerated base whose handle equals
the defining record, and 0 when no enumerated base equals it.  In particular,
when the enumeration of the accessor is the single base that defines the
function, at offset `k`, it returns `k`. -/
theorem C9_GetOffset_is_first_matching_base (baseClasses : Decl → List BaseStep)
    (c : Cursor) (accessor : Decl) (md : CXXMethodDecl)
    (hd : c.fDecl = some accessor) (hr : accessor.isRecordDecl = true) :
    GetOffset baseClasses c md =
      some (specOffset accessor.addr md.getParent (baseClasses accessor)) ∧
    (md.getParent = accessor.addr → GetOffset baseClasses c md = some 0) ∧
    (∀ k : Int, md.getParent ≠ accessor.addr →
      baseClasses accessor = [{ baseDecl := md.getParent, Offset := k }] →
      GetOffset baseClasses c md = some k) := by
  have h : GetOffset baseClasses c md =
      some (specOffset accessor.addr md.getParent (baseClasses accessor)) := by
    by_cases he : md.getParent = accessor.addr
    · simp [GetOffset, specOffset, hd, hr, he]
    · simp only [GetOffset, specOffset, hd, hr, scanBases_eq_find]
      simp [he]
  refine ⟨h, fun he => ?_, fun k hne hb => ?_⟩
  · rw [h]; simp [specOffset, he]
  · rw [h, hb]; simp [specOffset, hne]

/-- Witness of C9 on the chain `Derived : Base` with `Base` at offset 8. -/
theorem C9_GetOffset_is_first_matching_base_witness :
    (cursorOn derivedDecl).fDecl = some derivedDecl ∧ derivedDecl.isRecordDecl = true ∧
    GetOffset chainBases (cursorOn derivedDecl) baseMethod = some 8 ∧
    GetOffset chainBases (cursorOn derivedDecl) baseMethod =
      some (specOffset derivedDecl.addr baseMethod.getParent (chainBases derivedDecl)) ∧
    (baseMethod.getParent = derivedDecl.addr →
      GetOffset chainBases (cursorOn derivedDecl) baseMethod = some 0) ∧
    (∀ k : Int, baseMethod.getParent ≠ derivedDecl.addr →
      chainBases derivedDecl = [{ baseDecl := baseMethod.getParent, Offset := k }] →
      GetOffset chainBases (cursorOn derivedDecl) baseMethod = some k) :=
  ⟨rfl, by decide, by decide,
    C9_GetOffset_is_first_matching_base chainBases (cursorOn derivedDecl) derivedDecl baseMethod
      rfl (by decide)⟩

/-- C10: `GetMethodWithArgs` called with the argument text `")"` gives the same
method info and the same value behind `poffset` as called with the empty
argument text; and the call returns whenever the handle is null or a record. -/
theorem C10_right_paren_means_no_arguments (lh : LookupHelper)
    (baseClasses : Decl → List BaseStep) (c : Cursor) (fname : String)
    (objectIsConst : Bool) (poffset : Option Int) :
    GetMethodWithArgs lh baseClasses c fname ")" objectIsConst poffset =
      GetMethodWithArgs lh baseClasses c fname "" objectIsConst poffset ∧
    ((∀ d, c.fDecl = some d → d.isRecordDecl = true) →
      ∃ r, GetMethodWithArgs lh baseClasses c fname ")" objectIsConst poffset = some r) := by
  constructor
  · simp [GetMethodWithArgs]
  · intro hrec
    cases hd : c.fDecl with
    | none => simp [GetMethodWithArgs, hd]
    | some d =>
      have hr := hrec d hd
      simp only [GetMethodWithArgs, hd]
      split
      · exact ⟨_, rfl⟩
      · split
        · exact ⟨_, rfl⟩
        · rename_i fd _
          cases poffset with
          | none => simp [writeOffset]
          | some v =>
            cases hm : fd.asCXXMethodDecl with
            | none => simp [writeOffset, hm]
            | some md =>
              by_cases he : md.getParent = d.addr <;>
                simp [writeOffset, hm, GetOffset, hd, hr, he]

/-! ## GetMethod and IsValidMethod: claims C11 and C18 -/

theorem IsLoaded_handle (c : Cursor) (hl : IsLoaded c = true) : ∃ d, c.fDecl = some d := by
  cases hd : c.fDecl with
  | none =>
    simp only [IsLoaded, hd] at hl
    split at hl <;> simp at hl
  | some d => exact ⟨d, rfl⟩

theorem GetMethod_zeroed (lh : LookupHelper) (baseClasses : Decl → List BaseStep) (c : Cursor)
    (fname proto : String) (objectIsConst : Bool) (poffset : Option Int)
    (mode : EFunctionMatchMode) :
    GetMethod lh baseClasses c fname proto objectIsConst (poffset.map fun _ => (0 : Int)) mode =
      GetMethod lh baseClasses c fname proto objectIsConst poffset mode := by
  cases poffset <;> rfl

/-- C18: the result of `IsValidMethod` does not depend on `objectIsConst`: with
true and with false it returns the same boolean, leaves the same value behind
`offset` and reports the same.  On a loaded cursor these are the validity, the
offset and the reports of `GetMethod` resolved with `objectIsConst = false`
(and the call returns exactly when that `GetMethod` call does); on a cursor that
is not loaded it returns false and leaves `offset` as it is. -/
theorem C18_IsValidMethod_ignores_objectIsConst (lh : LookupHelper)
    (baseClasses : Decl → List BaseStep) (c : Cursor) (method proto : String)
    (offset : Option Int) (mode : EFunctionMatchMode) :
    IsValidMethod lh baseClasses c method proto true offset mode =
      IsValidMethod lh baseClasses c method proto false offset mode ∧
    (∀ objectIsConst : Bool, IsLoaded c = true →
      IsValidMethod lh baseClasses c method proto objectIsConst offset mode =
        (GetMethod lh baseClasses c method proto false offset mode).map
          fun mi => { ret := mi.info.IsValid, offset := mi.poffset, errors := mi.errors }) ∧
    (∀ objectIsConst : Bool, IsLoaded c = false →
      IsValidMethod lh baseClasses c method proto objectIsConst offset mode =
        some { ret := false, offset := offset, errors := [] }) := by
  refine ⟨rfl, fun b hl => ?_, fun b hl => ?_⟩
  · simp only [IsValidMethod, hl, GetMethodNonConst, GetMethod_zeroed]
    cases GetMethod lh baseClasses c method proto false offset mode <;> simp
  · simp [IsValidMethod, hl]

/-- The resolution of `f` through `Derived`, whose base `Base` defines it:
`IsValidMethod` answers true with the offset 8, whatever `objectIsConst` is. -/
theorem IsValidMethod_on_chain :
    IsValidMethod lookupBaseMethod chainBases (cursorOn derivedDecl) "f" "" true (some 0)
        EFunctionMatchMode.kConversionMatch =
      some { ret := true, offset := some 8, errors := [] } ∧
    IsValidMethod lookupBaseMethod chainBases (cursorOn derivedDecl) "f" "" false (some 0)
        EFunctionMatchMode.kExactMatch =
      some { ret := false, offset := some 0, errors := [] } := by
  decide

/-! ## ClassProperty: claim C17 -/

/-- The mask of `ClassProperty()` is 0 or the mask of a class or struct. -/
theorem ClassProperty_cases (K : EClassProperty) (c : Cursor) :
    ClassProperty K c = 0 ∨ ∃ d, ClassProperty K c = classOrStructProperty K d := by
  cases hd : c.fDecl with
  | none => simp [ClassProperty, hd]
  | some d =>
    simp only [ClassProperty, hd]
    split
    · exact Or.inl rfl
    · split
      · exact Or.inl rfl
      · split
        · exact Or.inl rfl
        · exact Or.inr ⟨d, rfl⟩

/-- The mask of a class or struct has the bit of `kClassIsValid`. -/
theorem classOrStructProperty_valid (K : EClassProperty) (d : Decl) :
    hasFlag K (classOrStructProperty K d) ClassFlag.kClassIsValid = true := by
  simp [hasFlag, classOrStructProperty_testBit]

/-- C17: with independent flags, the mask of `ClassProperty()` never has both
the explicit-constructor and the implicit-constructor bit, never has both the
explicit-destructor and the implicit-destructor bit, has the default-constructor
bit whenever it has the implicit-constructor bit, and has the `kClassIsValid`
bit whenever it is not zero. -/
theorem C17_ClassProperty_mask_is_consistent (K : EClassProperty) (hK : K.Independent)
    (c : Cursor) :
    ¬ (hasFlag K (ClassProperty K c) ClassFlag.kClassHasExplicitCtor = true ∧
        hasFlag K (ClassProperty K c) ClassFlag.kClassHasImplicitCtor = true) ∧
    ¬ (hasFlag K (ClassProperty K c) ClassFlag.kClassHasExplicitDtor = true ∧
        hasFlag K (ClassProperty K c) ClassFlag.kClassHasImplicitDtor = true) ∧
    (hasFlag K (ClassProperty K c) ClassFlag.kClassHasImplicitCtor = true →
      hasFlag K (ClassProperty K c) ClassFlag.kClassHasDefaultCtor = true) ∧
    (ClassProperty K c ≠ 0 →
      hasFlag K (ClassProperty K c) ClassFlag.kClassIsValid = true) := by
  rcases ClassProperty_cases K c with h | ⟨d, h⟩
  · simp [h, hasFlag]
  · rw [h]
    refine ⟨?_, ?_, ?_, fun _ => classOrStructProperty_valid K d⟩
    · simp only [hasFlag_classOrStruct K hK]
      cases d.info.hasUserDeclaredConstructor <;> simp
    · simp only [hasFlag_classOrStruct K hK]
      cases d.info.hasUserDeclaredDestructor <;> simp
    · simp only [hasFlag_classOrStruct K hK]
      cases d.info.hasTrivialDefaultConstructor <;> simp

/-- Witness of C17 on `class A { public: A(int); virtual ~A(); };`. -/
theorem C17_ClassProperty_mask_is_consistent_witness :
    rootBits.Independent ∧ ClassProperty rootBits (cursorOn classWithCtor) ≠ 0 ∧
    (¬ (hasFlag rootBits (ClassProperty rootBits (cursorOn classWithCtor))
          ClassFlag.kClassHasExplicitCtor = true ∧
        hasFlag rootBits (ClassProperty rootBits (cursorOn classWithCtor))
          ClassFlag.kClassHasImplicitCtor = true) ∧
    ¬ (hasFlag rootBits (ClassProperty rootBits (cursorOn classWithCtor))
          ClassFlag.kClassHasExplicitDtor = true ∧
        hasFlag rootBits (ClassProperty rootBits (cursorOn classWithCtor))
          ClassFlag.kClassHasImplicitDtor = true) ∧
    (hasFlag rootBits (ClassProperty rootBits (cursorOn classWithCtor))
        ClassFlag.kClassHasImplicitCtor = true →
      hasFlag rootBits (ClassProperty rootBits (cursorOn classWithCtor))
        ClassFlag.kClassHasDefaultCtor = true) ∧
    (ClassProperty rootBits (cursorOn classWithCtor) ≠ 0 →
      hasFlag rootBits (ClassProperty rootBits (cursorOn classWithCtor))
        ClassFlag.kClassIsValid = true)) :=
  ⟨by decide, by decide,
    C17_ClassProperty_mask_is_consistent rootBits (by decide) (cursorOn classWithCtor)⟩

/-! ## Construction and destruction: claims C12 to C16 -/

/-- The loop over the constructors returns true exactly when a public
constructor takes no parameter or has no required argument. -/
theorem scanCtors_iff (ks : List CtorInfo) :
    scanCtors ks = true ↔
      ∃ k ∈ ks, k.getAccess = AccessSpecifier.AS_public ∧
        (k.getNumParams = 0 ∨ k.getMinRequiredArguments = 0) := by
  induction ks with
  | nil => simp [scanCtors]
  | cons k ks ih =>
    simp only [scanCtors, List.mem_cons, exists_eq_or_imp]
    by_cases ha : k.getAccess = AccessSpecifier.AS_public
    · by_cases hn : k.getNumParams = 0
      · simp [ha, hn]
      · by_cases hm : k.getMinRequiredArguments = 0
        · simp [ha, hn, hm]
        · simp [ha, hn, hm, ih]
    · simp [ha, ih]

/-- The loop over the template arguments of a `pair` blocks exactly when an
argument is neither fundamental nor an enum and its record is neither public
nor without access. -/
theorem pairArgBlocks_iff (args : List TemplateArgType) :
    pairArgBlocks args = true ↔
      ∃ a ∈ args, a.isFundamentalType = false ∧ a.isEnumeralType = false ∧
        a.recordAccess ≠ AccessSpecifier.AS_public ∧
        a.recordAccess ≠ AccessSpecifier.AS_none := by
  induction args with
  | nil => simp [pairArgBlocks]
  | cons a args ih =>
    simp only [pairArgBlocks, List.mem_cons, exists_eq_or_imp]
    cases hf : a.isFundamentalType <;> cases he : a.isEnumeralType <;>
      cases hb : notPublicNorNone a.recordAccess <;>
      simp_all [notPublicNorNone]

/-- The answer of `HasDefaultConstructor()` on a record. -/
theorem HasDefaultConstructor_record (c : Cursor) (d : Decl) (hd : c.fDecl = some d)
    (hr : d.isRecordDecl = true) :
    HasDefaultConstructor c = true ↔
      IsLoaded c = true ∧
      (d.info.getAccess = AccessSpecifier.AS_public ∨
        d.info.getAccess = AccessSpecifier.AS_none) ∧
      ¬ (d.info.getIdentifier = some "pair" ∧ d.isClassTemplateSpecializationDecl = true ∧
          ∃ a ∈ d.info.templateArgs, a.isFundamentalType = false ∧ a.isEnumeralType = false ∧
            a.recordAccess ≠ AccessSpecifier.AS_public ∧
            a.recordAccess ≠ AccessSpecifier.AS_none) ∧
      ∃ k ∈ d.info.ctors, k.getAccess = AccessSpecifier.AS_public ∧
        (k.getNumParams = 0 ∨ k.getMinRequiredArguments = 0) := by
  rw [← scanCtors_iff, ← pairArgBlocks_iff]
  simp only [HasDefaultConstructor, hd, hr]
  cases hl : IsLoaded c <;> cases ha : d.info.getAccess <;>
    cases hp : pairArgBlocks d.info.templateArgs <;>
    cases hs : d.isClassTemplateSpecializationDecl <;>
    cases hc : scanCtors d.info.ctors <;>
    by_cases hi : d.info.getIdentifier = some "pair" <;>
    simp [notPublicNorNone, hi]

/-- A true answer of `HasDefaultConstructor()` comes from a loaded cursor with a
handle. -/
theorem HasDefaultConstructor_loaded (c : Cursor) (h : HasDefaultConstructor c = true) :
    IsLoaded c = true ∧ ∃ d, c.fDecl = some d := by
  cases hd : c.fDecl with
  | none => simp [HasDefaultConstructor, hd] at h
  | some d =>
    refine ⟨?_, d, rfl⟩
    cases hl : IsLoaded c with
    | true => rfl
    | false => simp [HasDefaultConstructor, hd, hl] at h

/-- When `HasDefaultConstructor()` is false the four construct entry points
return the null pointer and submit nothing. -/
theorem New_without_default_constructor (I : Interpreter) (c : Cursor) (n : Int) (arena : Nat)
    (log : List String) (h : HasDefaultConstructor c = false) :
    New I c log = (0, log) ∧ New_n I c n log = (0, log) ∧
    New_n_arena I c n arena log = (0, log) ∧ New_arena I c arena log = (0, log) := by
  cases hd : c.fDecl with
  | none => simp [New, New_n, New_n_arena, New_arena, hd]
  | some d => simp [New, New_n, New_n_arena, New_arena, hd, h]

/-- C12: on a cursor whose target record has no publicly reachable default
constructor (the cursor is not loaded, or the record is a protected or private class, or a `pair` blocked by
a template argument, or it declares no public constructor that can be called
without an argument), each of `New()`, `New(n)`, `New(n, arena)` and
`New(arena)` returns the null pointer and submits nothing to the interpreter. -/
theorem C12_no_default_constructor_returns_null (I : Interpreter) (c : Cursor) (d : Decl)
    (n : Int) (arena : Nat) (log : List String) (hd : c.fDecl = some d)
    (hr : d.isRecordDecl = true)
    (hno : IsLoaded c = false ∨ ¬ PubliclyReachableDefaultCtor d) :
    New I c log = (0, log) ∧ New_n I c n log = (0, log) ∧
    New_n_arena I c n arena log = (0, log) ∧ New_arena I c arena log = (0, log) := by
  apply New_without_default_constructor
  cases hh : HasDefaultConstructor c with
  | false => rfl
  | true =>
    obtain ⟨h0, h1, h2, h3⟩ := (HasDefaultConstructor_record c d hd hr).mp hh
    rcases hno with hl | hno
    · rw [h0] at hl; exact absurd hl (by decide)
    · exact absurd ⟨h1, h2, h3⟩ hno

/-- Witness of C12 on `class P { public: P(int); };`, on the private member
class `Inner` and on `std::pair<int, Outer::Inner>`. -/
theorem C12_no_default_constructor_returns_null_witness :
    (¬ PubliclyReachableDefaultCtor classParamCtor ∧
      New acceptingInterp (cursorOn classParamCtor) ["int x;"] = (0, ["int x;"]) ∧
      New_n acceptingInterp (cursorOn classParamCtor) 3 ["int x;"] = (0, ["int x;"]) ∧
      New_n_arena acceptingInterp (cursorOn classParamCtor) 3 4096 ["int x;"] =
        (0, ["int x;"]) ∧
      New_arena acceptingInterp (cursorOn classParamCtor) 4096 ["int x;"] = (0, ["int x;"])) ∧
    (¬ PubliclyReachableDefaultCtor privateInner ∧
      New acceptingInterp (cursorOn privateInner) [] = (0, []) ∧
      New_n acceptingInterp (cursorOn privateInner) 3 [] = (0, []) ∧
      New_n_arena acceptingInterp (cursorOn privateInner) 3 4096 [] = (0, []) ∧
      New_arena acceptingInterp (cursorOn privateInner) 4096 [] = (0, [])) ∧
    (¬ PubliclyReachableDefaultCtor pairOfPrivate ∧
      New acceptingInterp (cursorOn pairOfPrivate) [] = (0, []) ∧
      New_n acceptingInterp (cursorOn pairOfPrivate) 3 [] = (0, []) ∧
      New_n_arena acceptingInterp (cursorOn pairOfPrivate) 3 4096 [] = (0, []) ∧
      New_arena acceptingInterp (cursorOn pairOfPrivate) 4096 [] = (0, [])) :=
  ⟨⟨by decide, C12_no_default_constructor_returns_null acceptingInterp
      (cursorOn classParamCtor) classParamCtor 3 4096 ["int x;"] rfl (by decide) (Or.inr (by decide))⟩,
   ⟨by decide, C12_no_default_constructor_returns_null acceptingInterp
      (cursorOn privateInner) privateInner 3 4096 [] rfl (by decide) (Or.inr (by decide))⟩,
   ⟨by decide, C12_no_default_constructor_returns_null acceptingInterp
      (cursorOn pairOfPrivate) pairOfPrivate 3 4096 [] rfl (by decide) (Or.inr (by decide))⟩⟩

/-- C13, as the claim states it, fails: `class S { S() = default; };` is loaded,
is not a protected or private member, and has a trivial default constructor and
a trivial destructor, and the interpreter accepts every snippet; the constructor
is private, so `New(arena)` on non-null storage returns the null pointer and
submits nothing. -/
theorem C13_counterexample_private_trivial_constructor :
    IsLoaded (cursorOn privateTrivialCtor) = true ∧
    privateTrivialCtor.isRecordDecl = true ∧
    privateTrivialCtor.info.getAccess = AccessSpecifier.AS_none ∧
    privateTrivialCtor.info.hasTrivialDefaultConstructor = true ∧
    privateTrivialCtor.info.hasTrivialDestructor = true ∧
    New_arena acceptingInterp (cursorOn privateTrivialCtor) 4096 [] = (0, []) := by
  decide

/-- The snippet of `New(void *arena)`. -/
theorem New_arena_eq (I : Interpreter) (c : Cursor) (d : Decl) (arena : Nat)
    (log : List String) (hd : c.fDecl = some d) (hh : HasDefaultConstructor c = true) :
    New_arena I c arena log =
      evaluateNew I log
        ("new ((void*)" ++ toString arena ++ ") " ++ FullyQualifiedName d ++ ";") := by
  simp [New_arena, hd, hh]

/-- On a loaded cursor whose declaration has an identifier, `Destruct` reports
nothing. -/
theorem Destruct_named (I : Interpreter) (c : Cursor) (d : Decl) (ident : String)
    (arena : Nat) (log : List String) (hd : c.fDecl = some d) (hn : d.isNamedDecl = true)
    (hi : d.info.getIdentifier = some ident) :
    (Destruct I c arena log).2 = [] := by
  simp only [Destruct, hd]
  split
  · rfl
  · simp [hn, hi]

/-- C13 amended: on a cursor for which `HasDefaultConstructor()` is true and
whose declaration has an identifier, with an interpreter that accepts the
placement-new snippet whatever was submitted before and evaluates it to the
storage address, `New(arena)` on non-null storage returns that (non-null)
address and the following `Destruct(arena)` reports no error; and the same
holds when both are repeated on the same storage. -/
theorem C13_construct_destruct_round_trip (I : Interpreter) (c : Cursor) (d : Decl)
    (ident : String) (arena : Nat) (log : List String) (hd : c.fDecl = some d)
    (hh : HasDefaultConstructor c = true) (hn : d.isNamedDecl = true)
    (hi : d.info.getIdentifier = some ident) (harena : arena ≠ 0)
    (hI : ∀ l : List String,
      I.evaluate l ("new ((void*)" ++ toString arena ++ ") " ++ FullyQualifiedName d ++ ";") =
        (CompilationResult.kSuccess, arena)) :
    (New_arena I c arena log).1 = arena ∧ (New_arena I c arena log).1 ≠ 0 ∧
    (Destruct I c arena (New_arena I c arena log).2).2 = [] ∧
    (New_arena I c arena (Destruct I c arena (New_arena I c arena log).2).1).1 = arena ∧
    (Destruct I c arena
      (New_arena I c arena (Destruct I c arena (New_arena I c arena log).2).1).2).2 = [] := by
  have hnew : ∀ l : List String, (New_arena I c arena l).1 = arena := fun l => by
    rw [New_arena_eq I c d arena l hd hh]
    simp [evaluateNew, hI l]
  exact ⟨hnew _, by rw [hnew]; exact harena, Destruct_named I c d ident arena _ hd hn hi,
    hnew _, Destruct_named I c d ident arena _ hd hn hi⟩

/-- Witness of C13 amended on `struct Pod { int x; };` and the storage address
4096. -/
theorem C13_construct_destruct_round_trip_witness :
    HasDefaultConstructor (cursorOn podStruct) = true ∧
    ((New_arena acceptingInterp (cursorOn podStruct) 4096 []).1 = 4096 ∧
    (New_arena acceptingInterp (cursorOn podStruct) 4096 []).1 ≠ 0 ∧
    (Destruct acceptingInterp (cursorOn podStruct) 4096
      (New_arena acceptingInterp (cursorOn podStruct) 4096 []).2).2 = [] ∧
    (New_arena acceptingInterp (cursorOn podStruct) 4096
      (Destruct acceptingInterp (cursorOn podStruct) 4096
        (New_arena acceptingInterp (cursorOn podStruct) 4096 []).2).1).1 = 4096 ∧
    (Destruct acceptingInterp (cursorOn podStruct) 4096
      (New_arena acceptingInterp (cursorOn podStruct) 4096
        (Destruct acceptingInterp (cursorOn podStruct) 4096
          (New_arena acceptingInterp (cursorOn podStruct) 4096 []).2).1).2).2 = []) :=
  ⟨by decide, C13_construct_destruct_round_trip acceptingInterp (cursorOn podStruct) podStruct
    "Pod" 4096 [] rfl (by decide) (by decide) rfl (by decide) (fun _ => rfl)⟩

/-- The snippets of a construct-destruct round trip on `struct Pod`. -/
theorem podStruct_round_trip_snippets :
    (Destruct acceptingInterp (cursorOn podStruct) 4096
      (New_arena acceptingInterp (cursorOn podStruct) 4096 []).2) =
      (["new ((void*)4096) ns::Pod;", "((ns::Pod*)4096)->ns::Pod::~Pod();"], []) := by
  decide

/-- C14, as the claim states it, fails: on a cursor that is not loaded,
`DeleteArray` with the destructor-only flag returns without reporting anything. -/
theorem C14_counterexample_not_loaded_reports_nothing :
    IsLoaded unboundCursor = false ∧
    DeleteArray acceptingInterp unboundCursor 4096 true [] = ([], []) := by
  decide

/-- C14 amended: for every cursor and every address, `DeleteArray` with the
destructor-only flag submits nothing to the interpreter; it reports the error
when the cursor is loaded, and reports nothing when the cursor is not loaded. -/
theorem C14_DeleteArray_dtorOnly_is_unsupported (I : Interpreter) (c : Cursor) (arena : Nat)
    (log : List String) :
    (DeleteArray I c arena true log).1 = log ∧
    (DeleteArray I c arena true log).2 =
      if IsLoaded c then [placementDeleteArrayError] else [] := by
  cases hd : c.fDecl with
  | none =>
    have hl : IsLoaded c = false := by
      cases h : IsLoaded c with
      | false => rfl
      | true =>
        obtain ⟨d, hd2⟩ := IsLoaded_handle c h
        rw [hd] at hd2
        exact absurd hd2 (by simp)
    simp [DeleteArray, hd, hl]
  | some d =>
    cases hl : IsLoaded c <;> simp [DeleteArray, hd, hl]

theorem evaluateNew_eq_specConstruct (I : Interpreter) (log : List String) (code : String) :
    evaluateNew I log code = specConstruct I log code := by
  simp only [evaluateNew, specConstruct]
  rcases h : I.evaluate log code with ⟨r, p⟩
  cases r <;> simp

/-- C15: on a loaded cursor positioned on a declaration `d`, with `N` the fully
qualified name of `d` (empty when `d` is not a named declaration), `A` the decimal address and `n` the count: when
`HasDefaultConstructor()` is true the four construct entry points submit exactly
the snippets `new N;`, `new N[n];`, `new ((void*)A) N[n];` and
`new ((void*)A) N;` and return the null pointer on any result other than
success, otherwise the pointer of the result value; `Delete` and `DeleteArray`
without the destructor-only flag submit exactly `delete (N*)A;` and
`delete[] (N*)A;`, report nothing and return whatever the interpreter answers. -/
theorem C15_snippets_of_construct_and_delete (I : Interpreter) (c : Cursor) (d : Decl)
    (n : Int) (arena : Nat) (log : List String) (hd : c.fDecl = some d)
    (hl : IsLoaded c = true) :
    (HasDefaultConstructor c = true →
      New I c log = specConstruct I log ("new " ++ specEntityName d ++ ";") ∧
      New_n I c n log =
        specConstruct I log ("new " ++ specEntityName d ++ "[" ++ toString n ++ "];") ∧
      New_n_arena I c n arena log =
        specConstruct I log ("new ((void*)" ++ toString arena ++ ") " ++ specEntityName d ++
          "[" ++ toString n ++ "];") ∧
      New_arena I c arena log =
        specConstruct I log ("new ((void*)" ++ toString arena ++ ") " ++ specEntityName d ++
          ";")) ∧
    Delete I c arena log =
      log ++ ["delete (" ++ specEntityName d ++ "*)" ++ toString arena ++ ";"] ∧
    DeleteArray I c arena false log =
      (log ++ ["delete[] (" ++ specEntityName d ++ "*)" ++ toString arena ++ ";"], []) := by
  have hN : FullyQualifiedName d = specEntityName d := by
    cases h : d.isNamedDecl <;> simp [FullyQualifiedName, specEntityName, h]
  refine ⟨fun hh => ?_, ?_, ?_⟩
  · simp [New, New_n, New_n_arena, New_arena, hd, hh, hN, evaluateNew_eq_specConstruct]
  · simp [Delete, hd, hl, hN, executeVoid]
  · simp [DeleteArray, hd, hl, hN, executeVoid]

/-- Witness of C15 on `struct Pod { int x; };`, whose qualified name is
`ns::Pod`, with an interpreter that rejects every snippet. -/
theorem C15_snippets_of_construct_and_delete_witness :
    HasDefaultConstructor (cursorOn podStruct) = true ∧
    specEntityName podStruct = "ns::Pod" ∧
    ((HasDefaultConstructor (cursorOn podStruct) = true →
      New rejectingInterp (cursorOn podStruct) [] =
        specConstruct rejectingInterp [] ("new " ++ specEntityName podStruct ++ ";") ∧
      New_n rejectingInterp (cursorOn podStruct) 3 [] =
        specConstruct rejectingInterp []
          ("new " ++ specEntityName podStruct ++ "[" ++ toString (3 : Int) ++ "];") ∧
      New_n_arena rejectingInterp (cursorOn podStruct) 3 4096 [] =
        specConstruct rejectingInterp []
          ("new ((void*)" ++ toString 4096 ++ ") " ++ specEntityName podStruct ++
            "[" ++ toString (3 : Int) ++ "];") ∧
      New_arena rejectingInterp (cursorOn podStruct) 4096 [] =
        specConstruct rejectingInterp []
          ("new ((void*)" ++ toString 4096 ++ ") " ++ specEntityName podStruct ++ ";")) ∧
    Delete rejectingInterp (cursorOn podStruct) 4096 [] =
      [] ++ ["delete (" ++ specEntityName podStruct ++ "*)" ++ toString 4096 ++ ";"] ∧
    DeleteArray rejectingInterp (cursorOn podStruct) 4096 false [] =
      ([] ++ ["delete[] (" ++ specEntityName podStruct ++ "*)" ++ toString 4096 ++ ";"],
        [])) :=
  ⟨by decide, by decide, C15_snippets_of_construct_and_delete rejectingInterp
    (cursorOn podStruct) podStruct 3 4096 [] rfl (by decide)⟩

/-- The six entry points on `struct Pod`, as text: with an interpreter that
accepts, and with one that rejects. -/
theorem podStruct_snippets :
    New acceptingInterp (cursorOn podStruct) [] = (4096, ["new ns::Pod;"]) ∧
    New_n acceptingInterp (cursorOn podStruct) 3 [] = (4096, ["new ns::Pod[3];"]) ∧
    New_n_arena acceptingInterp (cursorOn podStruct) 3 4096 [] =
      (4096, ["new ((void*)4096) ns::Pod[3];"]) ∧
    New_arena acceptingInterp (cursorOn podStruct) 4096 [] =
      (4096, ["new ((void*)4096) ns::Pod;"]) ∧
    New_arena rejectingInterp (cursorOn podStruct) 4096 [] =
      (0, ["new ((void*)4096) ns::Pod;"]) ∧
    Delete rejectingInterp (cursorOn podStruct) 4096 [] = ["delete (ns::Pod*)4096;"] ∧
    DeleteArray acceptingInterp (cursorOn podStruct) 4096 false [] =
      (["delete[] (ns::Pod*)4096;"], []) := by
  decide

/-- C16, as the claim states it, fails: the member class `Inner` of
`class Outer { class Inner { public: Inner(); }; };` has a public constructor
that takes no argument, and `HasDefaultConstructor()` is false because the
class itself is private. -/
theorem C16_counterexample_private_member_class :
    IsLoaded (cursorOn privateInner) = true ∧
    (∃ k ∈ privateInner.info.ctors,
      k.getAccess = AccessSpecifier.AS_public ∧ k.getNumParams = 0) ∧
    HasDefaultConstructor (cursorOn privateInner) = false := by
  decide

/-- C16 amended: on a cursor positioned on a record, `HasDefaultConstructor()`
is true if and only if the cursor is loaded, the access of the record is public
or none, the record is not a specialization named `pair` with a template
argument that is neither fundamental nor an enum and whose record is protected
or private, and the record declares a public constructor that takes no
parameter or has no required argument. -/
theorem C16_HasDefaultConstructor_on_record (c : Cursor) (d : Decl) (hd : c.fDecl = some d)
    (hr : d.isRecordDecl = true) :
    HasDefaultConstructor c = true ↔
      IsLoaded c = true ∧
      (d.info.getAccess = AccessSpecifier.AS_public ∨
        d.info.getAccess = AccessSpecifier.AS_none) ∧
      ¬ (d.info.getIdentifier = some "pair" ∧ d.isClassTemplateSpecializationDecl = true ∧
          ∃ a ∈ d.info.templateArgs, a.isFundamentalType = false ∧ a.isEnumeralType = false ∧
            a.recordAccess ≠ AccessSpecifier.AS_public ∧
            a.recordAccess ≠ AccessSpecifier.AS_none) ∧
      ∃ k ∈ d.info.ctors, k.getAccess = AccessSpecifier.AS_public ∧
        (k.getNumParams = 0 ∨ k.getMinRequiredArguments = 0) :=
  HasDefaultConstructor_record c d hd hr

/-- Witness of C16 amended on `struct Pod { int x; };`. -/
theorem C16_HasDefaultConstructor_on_record_witness :
    podStruct.isRecordDecl = true ∧ HasDefaultConstructor (cursorOn podStruct) = true ∧
    (HasDefaultConstructor (cursorOn podStruct) = true ↔
      IsLoaded (cursorOn podStruct) = true ∧
      (podStruct.info.getAccess = AccessSpecifier.AS_public ∨
        podStruct.info.getAccess = AccessSpecifier.AS_none) ∧
      ¬ (podStruct.info.getIdentifier = some "pair" ∧
          podStruct.isClassTemplateSpecializationDecl = true ∧
          ∃ a ∈ podStruct.info.templateArgs, a.isFundamentalType = false ∧
            a.isEnumeralType = false ∧
            a.recordAccess ≠ AccessSpecifier.AS_public ∧
            a.recordAccess ≠ AccessSpecifier.AS_none) ∧
      ∃ k ∈ podStruct.info.ctors, k.getAccess = AccessSpecifier.AS_public ∧
        (k.getNumParams = 0 ∨ k.getMinRequiredArguments = 0)) :=
  ⟨by decide, by decide,
    C16_HasDefaultConstructor_on_record (cursorOn podStruct) podStruct rfl (by decide)⟩

end TClingClassInfo
